/-
Verification of the IMDBx scraper core against its specification.

This file shallowly embeds the relevant parts of the repository
(src/imdbx/_parse.py, _browser.py, _http.py, models.py, __init__.py)
as executable Lean definitions and proves or refutes the spec claims
about them.  Text is modelled as `List Char` (Python `str`), the HTML
document tree (BeautifulSoup) as an inductive `Node`, and the handful
of regular expressions the source uses are translated one by one into
dedicated matcher functions.
-/

import Mathlib

set_option maxRecDepth 10000

/-! ## Characters and strings (Python `str` as `List Char`) -/

abbrev Str := List Char

/-- Helper to write `Str` literals. -/
def lit (s : String) : Str := s.data

/-- Python `\s` (ASCII fragment): space, tab, newline, carriage return,
vertical tab, form feed. -/
def isWs (c : Char) : Bool :=
  c == ' ' || c == '\t' || c == '\n' || c == '\r' || c == '\x0b' || c == '\x0c'

def isDigitC (c : Char) : Bool := '0' ≤ c && c ≤ '9'

def isAlphaC (c : Char) : Bool :=
  ('a' ≤ c && c ≤ 'z') || ('A' ≤ c && c ≤ 'Z')

/-- Python `\w` (ASCII fragment). -/
def isWordC (c : Char) : Bool := isAlphaC c || isDigitC c || c == '_'

/-- ASCII lower-casing, as Python `str.lower` on the characters we model. -/
def lowerChar (c : Char) : Char :=
  if 'A' ≤ c && c ≤ 'Z' then Char.ofNat (c.toNat + 32) else c

def lowerStr (s : Str) : Str := s.map lowerChar

/-- Python `str.strip()` (leading and trailing whitespace removed). -/
def trimStr (s : Str) : Str :=
  ((s.dropWhile (isWs ·)).reverse.dropWhile (isWs ·)).reverse

def lstripStr (s : Str) : Str := s.dropWhile (isWs ·)

def rstripStr (s : Str) : Str := (s.reverse.dropWhile (isWs ·)).reverse

/-- Substring containment, Python `pat in s`. -/
def containsSub (s pat : Str) : Bool :=
  match s with
  | [] => pat == []
  | _ :: t => pat.isPrefixOf s || containsSub t pat

/-- `s.startswith p`. -/
def startsW (s p : Str) : Bool := p.isPrefixOf s

/-- `s.endswith p`. -/
def endsW (s p : Str) : Bool := p.reverse.isPrefixOf s.reverse

/-- Python `str.isdigit` on the ASCII fragment: nonempty and all digits. -/
def isDigits (s : Str) : Bool := s ≠ [] && s.all (isDigitC ·)

/-- Positional value of a digit string, the effect of Python `int` on the
digit strings this program feeds it. -/
def strToNat (s : Str) : Nat := s.foldl (fun a c => 10 * a + (c.toNat - 48)) 0

def digitChar (d : Nat) : Char :=
  (['0', '1', '2', '3', '4', '5', '6', '7', '8', '9']).getD d '0'

/-- Fuel-indexed digit printer (the fuel only serves termination; any fuel
above the number itself gives the true decimal rendering). -/
def natToStrAux : Nat → Nat → Str
  | 0, _ => []
  | fuel + 1, n =>
    if n < 10 then [digitChar n]
    else natToStrAux fuel (n / 10) ++ [digitChar (n % 10)]

/-- Python `str(n)` for a nonnegative integer. -/
def natToStr (n : Nat) : Str := natToStrAux (n + 1) n

/-- Python `int()` applied to a general string: optional surrounding
whitespace, optional sign, then digits possibly separated by single
underscores.  Returns `none` where Python raises `ValueError`. -/
def pyInt (s : Str) : Option Int :=
  let t := trimStr s
  let (neg, t) : Bool × Str :=
    match t with
    | '-' :: r => (true, r)
    | '+' :: r => (false, r)
    | r => (false, r)
  match digitsVal t with
  | some n => some (if neg then -(n : Int) else (n : Int))
  | none => none
where
  /-- digits with optional single `_` separators between digits -/
  digitsVal : Str → Option Nat
  | [] => none
  | c :: r =>
    if isDigitC c then go (c.toNat - 48) r else none
  go : Nat → Str → Option Nat
  | acc, [] => some acc
  | acc, '_' :: c :: r => if isDigitC c then go (10 * acc + (c.toNat - 48)) r else none
  | _, ['_'] => none
  | acc, c :: r => if isDigitC c then go (10 * acc + (c.toNat - 48)) r else none

/-- Join a list of strings with a separator (Python `sep.join`). -/
def joinSep (sep : Str) : List Str → Str
  | [] => []
  | [x] => x
  | x :: y :: t => x ++ sep ++ joinSep sep (y :: t)

/-! ## Generic matcher helpers for the source's regular expressions -/

/-- Match a literal prefix, returning the rest. -/
def litM : Str → Str → Option Str
  | [], s => some s
  | _ :: _, [] => none
  | c :: p, d :: s => if c == d then litM p s else none

/-- Greedily match one-or-more characters of a class, returning the rest. -/
def many1 (cls : Char → Bool) : Str → Option Str
  | [] => none
  | c :: t => if cls c then some (t.dropWhile cls) else none

/-- Match exactly `n` characters of a class, returning the rest. -/
def exactly (cls : Char → Bool) : Nat → Str → Option Str
  | 0, s => some s
  | _ + 1, [] => none
  | n + 1, c :: t => if cls c then exactly cls n t else none

/-- `re.search` driver: does `m` match at some position of `s`? -/
def searchPos (m : Str → Bool) : Str → Bool
  | [] => m []
  | c :: t => m (c :: t) || searchPos m t

example : trimStr (lit "  ab  ") = lit "ab" := by decide
example : strToNat (natToStr 2017) = 2017 := by decide
example : containsSub (lit "abcdef") (lit "cde") = true := by decide
example : pyInt (lit " 80 ") = some 80 := by decide
example : pyInt (lit "x80") = none := by decide

/-! ## The source's regular expressions, one matcher each -/

/-- `S\d+\.E\d+` matching at one position, case-sensitive
(`_find_description` uses it without `re.I`). -/
def seAtCS (s : Str) : Bool :=
  match s with
  | 'S' :: t =>
    match many1 isDigitC t with
    | some ('.' :: 'E' :: u) => (many1 isDigitC u).isSome
    | _ => false
  | _ => false

/-- `S\d+\.E\d+` at one position with `re.I`. -/
def seAtCI (s : Str) : Bool :=
  match s with
  | c :: t =>
    if lowerChar c == 's' then
      match many1 isDigitC t with
      | some ('.' :: e :: u) => lowerChar e == 'e' && (many1 isDigitC u).isSome
      | _ => false
    else false
  | [] => false

/-- `re.search(r"S\d+\.E\d+", s, re.I)` as used by `_find_episode_cards`
and `_find_title_text`. -/
def seSearchCI (s : Str) : Bool := searchPos seAtCI s

/-- `re.search(r"S\d+\.E\d+", s)` as used by `_find_description`. -/
def seSearchCS (s : Str) : Bool := searchPos seAtCS s

/-- `re.match(r"S(\d+)\.E(\d+)", code, re.I)`: the season/episode pair
parsed from the episode code, `none` when the pattern is absent. -/
def parseSEcode (s : Str) : Option (Nat × Nat) :=
  match s with
  | c :: t =>
    if lowerChar c == 's' then
      let ds := t.takeWhile (isDigitC ·)
      if ds == [] then none
      else
        match t.dropWhile (isDigitC ·) with
        | '.' :: e :: u =>
          if lowerChar e == 'e' then
            let ds2 := u.takeWhile (isDigitC ·)
            if ds2 == [] then none else some (strToNat ds, strToNat ds2)
          else none
        | _ => none
    else none
  | [] => none

/-- `/title/tt\d+/\?ref_=ttep` at one position. -/
def epLinkAt (s : Str) : Bool :=
  match litM (lit "/title/tt") s with
  | some t =>
    match many1 isDigitC t with
    | some u => (litM (lit "/?ref_=ttep") u).isSome
    | none => false
  | none => false

/-- `re.search` of `EP_LINK` from `_find_episode_cards`. -/
def epLinkSearch (s : Str) : Bool := searchPos epLinkAt s

/-- `/title/tt\d+/` at one position. -/
def titleLinkAt (s : Str) : Bool :=
  match litM (lit "/title/tt") s with
  | some t =>
    match many1 isDigitC t with
    | some ('/' :: _) => true
    | _ => false
  | none => false

/-- `re.search(r"/title/tt\d+/", href)` from `_find_episode_link`. -/
def titleLinkSearch (s : Str) : Bool := searchPos titleLinkAt s

/-- `^/interest/in\d+` (the pattern is anchored, so bs4's `.search` is a
prefix match) from the tag collector in `parse_series_metadata`. -/
def interestHref (s : Str) : Bool :=
  match litM (lit "/interest/in") s with
  | some t => (many1 isDigitC t).isSome
  | none => false

/-- `\?season=\d+` at one position; with a group it also yields the digits. -/
def seasonAt (s : Str) : Option Nat :=
  match litM (lit "?season=") s with
  | some t =>
    let ds := t.takeWhile (isDigitC ·)
    if ds == [] then none else some (strToNat ds)
  | none => none

def seasonSearch (s : Str) : Bool := searchPos (fun t => (seasonAt t).isSome) s

/-- `re.search(r"\?season=(\d+)", href)`: the first captured group. -/
def seasonGroup : Str → Option Nat
  | [] => none
  | c :: t =>
    match seasonAt (c :: t) with
    | some n => some n
    | none => seasonGroup t

/-- One alternative of the `_find_air_date` DATE pattern:
`(Mon|Tue|Wed|Thu|Fri|Sat|Sun),\s+\w+\s+\d+,\s+\d{4}` (input lowered). -/
def dateAlt1At (s : Str) : Bool :=
  [lit "mon", lit "tue", lit "wed", lit "thu", lit "fri", lit "sat", lit "sun"].any
    (fun d =>
      match litM d s with
      | some (',' :: t) =>
        (match many1 isWs t with
         | some u =>
           (match many1 isWordC u with
            | some v =>
              (match many1 isWs v with
               | some w =>
                 (match many1 isDigitC w with
                  | some (',' :: x) =>
                    (match many1 isWs x with
                     | some y => (exactly isDigitC 4 y).isSome
                     | none => false)
                  | _ => false)
               | none => false)
            | none => false)
         | none => false)
      | _ => false)

/-- Second alternative: `\d{1,2}\s+\w+\s+\d{4}` (with the `{1,2}` backtrack). -/
def dateAlt2At (s : Str) : Bool :=
  let tail2 : Str → Bool := fun t =>
    match many1 isWs t with
    | some u =>
      (match many1 isWordC u with
       | some v =>
         (match many1 isWs v with
          | some w => (exactly isDigitC 4 w).isSome
          | none => false)
       | none => false)
    | none => false
  match s with
  | a :: b :: t => isDigitC a && ((isDigitC b && tail2 t) || tail2 (b :: t))
  | [a] => isDigitC a && tail2 []
  | [] => false

/-- Third alternative: `\d{4}-\d{2}-\d{2}`. -/
def dateAlt3At (s : Str) : Bool :=
  match exactly isDigitC 4 s with
  | some ('-' :: t) =>
    (match exactly isDigitC 2 t with
     | some ('-' :: u) => (exactly isDigitC 2 u).isSome
     | _ => false)
  | _ => false

/-- `re.search` of `_find_air_date`'s DATE pattern (`re.I`). -/
def airDateSearch (s : Str) : Bool :=
  searchPos (fun t => dateAlt1At t || dateAlt2At t || dateAlt3At t) (lowerStr s)

/-- `_find_description`'s DATE pattern `\d{4}|Mon|Tue|Wed|Thu|Fri|Sat|Sun`
(`re.I`), searched in `text[:15]`. -/
def descDateSearch (s : Str) : Bool :=
  searchPos
    (fun t =>
      (exactly isDigitC 4 t).isSome ||
      [lit "mon", lit "tue", lit "wed", lit "thu", lit "fri", lit "sat", lit "sun"].any
        (fun d => (litM d t).isSome))
    (lowerStr s)

/-- Class `[\d.]` of the rating score pattern. -/
def isNumDot (c : Char) : Bool := isDigitC c || c == '.'

/-- `re.search(r"([\d.]+)", s)`: the first maximal run of `[0-9.]`. -/
def firstNumDotRun : Str → Option Str
  | [] => none
  | c :: t =>
    if isNumDot c then some (c :: t.takeWhile (isNumDot ·))
    else firstNumDotRun t

/-- Class `[\d.,KkMm]` of the vote-count patterns. -/
def isVotesC (c : Char) : Bool :=
  isDigitC c || c == '.' || c == ',' || c == 'K' || c == 'k' || c == 'M' || c == 'm'

/-- `re.search(r"\(\s*([\d.,KkMm]+)\s*\)", s)`: captured group of the first
parenthesised vote count. -/
def parenVotesAt (s : Str) : Option Str :=
  match s with
  | '(' :: t =>
    let u := t.dropWhile (isWs ·)
    let g := u.takeWhile (isVotesC ·)
    if g == [] then none
    else
      match (u.dropWhile (isVotesC ·)).dropWhile (isWs ·) with
      | ')' :: _ => some g
      | _ => none
  | _ => none

def parenVotesSearch : Str → Option Str
  | [] => none
  | c :: t =>
    match parenVotesAt (c :: t) with
    | some g => some g
    | none => parenVotesSearch t

/-- `\b(\d\.\d)\s*/\s*10\b` matching at one position given the previous
character (for the word boundaries). -/
def freeRatingAt (prev : Option Char) (s : Str) : Option Str :=
  let boundaryBefore :=
    match prev with
    | none => true
    | some p => !isWordC p
  match s with
  | a :: '.' :: b :: t =>
    if boundaryBefore && isDigitC a && isDigitC b then
      match (t.dropWhile (isWs ·)) with
      | '/' :: u =>
        (match (u.dropWhile (isWs ·)) with
         | '1' :: '0' :: v =>
           (match v with
            | [] => some [a, '.', b]
            | w :: _ => if isWordC w then none else some [a, '.', b])
         | _ => none)
      | _ => none
    else none
  | _ => none

/-- `re.search(r"\b(\d\.\d)\s*/\s*10\b", s)`: the captured score. -/
def freeRatingSearch (s : Str) : Option Str :=
  go none s
where
  go : Option Char → Str → Option Str
  | _, [] => none
  | prev, c :: t =>
    match freeRatingAt prev (c :: t) with
    | some g => some g
    | none => go (some c) t

/-- `re.findall(r"/\s*10\s+([\d.,KkMm]+)", s)`: all captured vote-count
groups, scanning left to right over non-overlapping matches. -/
def votesFindallAt (s : Str) : Option (Str × Str) :=
  match s with
  | '/' :: t =>
    match (t.dropWhile (isWs ·)) with
    | '1' :: '0' :: u =>
      (match many1 isWs u with
       | some v =>
         let g := v.takeWhile (isVotesC ·)
         if g == [] then none else some (g, v.dropWhile (isVotesC ·))
       | none => none)
    | _ => none
  | _ => none

def votesFindallAux : Nat → Str → List Str
  | 0, _ => []
  | _ + 1, [] => []
  | fuel + 1, c :: t =>
    match votesFindallAt (c :: t) with
    | some (g, rest) => g :: votesFindallAux fuel rest
    | none => votesFindallAux fuel t

def votesFindall (s : Str) : List Str := votesFindallAux s.length s

example : seSearchCI (lit "s1.e1 foo") = true := by decide
example : seSearchCS (lit "s1.e1 foo") = false := by decide
example : parseSEcode (lit "S12.E3") = some (12, 3) := by decide
example : epLinkSearch (lit "x/title/tt123/?ref_=ttep_ep1") = true := by decide
example : airDateSearch (lit "Tue, Oct 3, 2017") = true := by decide
example : airDateSearch (lit "3 Oct 2017") = true := by decide
example : freeRatingSearch (lit "x 7.6 / 10 y") = some (lit "7.6") := by decide
example : freeRatingSearch (lit "a7.6/10") = none := by decide
example : votesFindall (lit "8.2 / 10 8.2 rate 8.2 /10 47K votes") =
    [lit "8.2", lit "47K"] := by decide
example : seasonGroup (lit "/title/tt1/episodes/?season=4&x=1") = some 4 := by decide

/-! ## Document tree (BeautifulSoup embedding) -/

/-- A parsed HTML node: an element with a tag name, attributes and
children, or a text node. -/
inductive Node where
  | elem (tag : Str) (attrs : List (Str × Str)) (children : List Node)
  | text (s : Str)

/-- Attribute lookup (`tag.get(key)`); text nodes have no attributes. -/
def Node.attr : Node → Str → Option Str
  | .text _, _ => none
  | .elem _ attrs _, k => (attrs.find? (fun kv => kv.1 == k)).map (·.2)

def Node.attrD (n : Node) (k : Str) (d : Str) : Str := (n.attr k).getD d

def Node.tagName : Node → Str
  | .text _ => []
  | .elem t _ _ => t

def Node.isElem : Node → Bool
  | .text _ => false
  | .elem _ _ _ => true

mutual
/-- All descendants of a node in document (pre-)order, excluding the node
itself — the order bs4's `find_all` walks. -/
def Node.descendants : Node → List Node
  | .text _ => []
  | .elem _ _ cs => descList cs

def descList : List Node → List Node
  | [] => []
  | n :: ns => n :: n.descendants ++ descList ns
end

mutual
/-- All text-node strings of a subtree (including the node itself when it
is a text node), in document order. -/
def Node.texts : Node → List Str
  | .text s => [s]
  | .elem _ _ cs => textsList cs

def textsList : List Node → List Str
  | [] => []
  | n :: ns => n.texts ++ textsList ns
end

/-- bs4 `get_text(separator, strip)`: join the subtree's strings;
with `strip=True` each string is stripped and empties are dropped. -/
def Node.getText (n : Node) (sep : Str) (strip : Bool) : Str :=
  if strip then joinSep sep ((n.texts.map trimStr).filter (· ≠ []))
  else joinSep sep n.texts

/-- `get_text()` with defaults. -/
def Node.textRaw (n : Node) : Str := n.getText [] false

/-- `get_text(strip=True)`. -/
def Node.textStrip (n : Node) : Str := n.getText [] true

/-- `get_text(" ", strip=True)`. -/
def Node.textSpStrip (n : Node) : Str := n.getText [' '] true

/-- `get_text(" ")`. -/
def Node.textSp (n : Node) : Str := n.getText [' '] false

/-- `soup.find_all(pred)` over the whole subtree. -/
def Node.findAll (n : Node) (p : Node → Bool) : List Node :=
  n.descendants.filter p

/-- `soup.find(pred)`. -/
def Node.findFirst (n : Node) (p : Node → Bool) : Option Node :=
  (n.findAll p).head?

/-- `find_all(tagname)`. -/
def Node.findAllTag (n : Node) (t : Str) : List Node :=
  n.findAll (fun m => m.isElem && m.tagName == t)

/-- `find(attrs={"data-testid": v})` — exact attribute match. -/
def Node.findTestid (n : Node) (v : Str) : Option Node :=
  n.findFirst (fun m => m.attr (lit "data-testid") == some v)

mutual
/-- Descendants paired with their parent element, in document order —
needed for bs4's `.parent` step in `parse_series_metadata`. -/
def Node.descWithParent : Node → List (Node × Node)
  | .text _ => []
  | .elem t a cs => dwpList (Node.elem t a cs) cs

def dwpList (par : Node) : List Node → List (Node × Node)
  | [] => []
  | n :: ns => (n, par) :: n.descWithParent ++ dwpList par ns
end

mutual
/-- The `option` elements lying under some `select` ancestor, in document
order — the CSS selector `select option` of `parse_season_numbers`.
`inSel` records whether a strict ancestor is a `select`. -/
def selectOptions (inSel : Bool) : Node → List Node
  | .text _ => []
  | .elem t a cs =>
    (if inSel && t == lit "option" then [Node.elem t a cs] else []) ++
      selectOptionsList (inSel || t == lit "select") cs

def selectOptionsList (inSel : Bool) : List Node → List Node
  | [] => []
  | n :: ns => selectOptions inSel n ++ selectOptionsList inSel ns
end

/-! ## Data model (src/imdbx/models.py) -/

/-- `models.Episode`, field for field. -/
structure Episode where
  episode_code : Str
  title : Str
  season : Nat
  episode : Nat
  air_date : Str
  description : Str
  rating : Str
  cover_image : Option Str := none
  cover_image_local : Option Str := none
  imdb_url : Str := []
deriving DecidableEq

/-- `models.SeriesMetadata`, field for field. -/
structure SeriesMetadata where
  title_id : Str
  series_name : Str
  type : Option Str := none
  years : Option Str := none
  content_rating : Option Str := none
  episode_duration : Option Str := none
  imdb_rating : Option Str := none
  rating_count : Option Str := none
  popularity : Option Str := none
  tags : List Str := []
deriving DecidableEq

/-- `models.TitleInfo`: metadata plus the season-number → episodes map
(a Python dict, modelled as an insertion-ordered association list). -/
structure TitleInfo where
  meta : SeriesMetadata
  seasons : List (Nat × List Episode) := []
deriving DecidableEq

/-- `TitleInfo.get_episode`. -/
def TitleInfo.get_episode (t : TitleInfo) (season episode : Nat) : Option Episode :=
  (((t.seasons.find? (fun p => p.1 == season)).map (·.2)).getD []).find?
    (fun ep => ep.episode == episode)

/-! ## Structural parser (src/imdbx/_parse.py) -/

def BASE_URL : Str := lit "https://www.imdb.com"

/-- `re.sub(r"\s*-\s*IMDBx\s*$", "", s, flags=re.I)`: does a whole suffix
match the pattern? -/
def imdbxSuffixAt (s : Str) : Bool :=
  match (lowerStr s).dropWhile (isWs ·) with
  | '-' :: r =>
    (match litM (lit "imdbx") (r.dropWhile (isWs ·)) with
     | some rest => rest.all (isWs ·)
     | none => false)
  | _ => false

/-- `re.sub(r"\s*\(\d{4}.*?\)\s*$", "", s)`: does a whole suffix match?
(`.` does not cross a newline, `.*?\)` needs some `)` with an all-white
tail after it.) -/
def parenYearSuffixAt (s : Str) : Bool :=
  match s.dropWhile (isWs ·) with
  | '(' :: r =>
    (match exactly isDigitC 4 r with
     | some rest => closeThenWs rest
     | none => false)
  | _ => false
where
  closeThenWs : Str → Bool
  | [] => false
  | ')' :: t => t.dropWhile (isWs ·) == [] || closeThenWs t
  | '\n' :: _ => false
  | _ :: t => closeThenWs t

/-- Remove the (end-anchored) pattern match from the leftmost position at
which a suffix matches — the effect of `re.sub` with these patterns. -/
def stripEndMatch (p : Str → Bool) : Str → Str
  | [] => []
  | c :: t => if p (c :: t) then [] else c :: stripEndMatch p t

/-- Content-rating pattern of the hero list:
`re.match(r"TV-(G|PG|14|MA)|^(G|PG|PG-13|R|NC-17)$", item, re.I)`. -/
def isContentRatingItem (item : Str) : Bool :=
  let l := lowerStr item
  startsW l (lit "tv-g") || startsW l (lit "tv-pg") ||
  startsW l (lit "tv-14") || startsW l (lit "tv-ma") ||
  l == lit "g" || l == lit "pg" || l == lit "pg-13" ||
  l == lit "r" || l == lit "nc-17"

/-- `re.match(r"TV\s|Movie|Short|Special|Mini", item, re.I)`. -/
def isTypeItem (item : Str) : Bool :=
  let l := lowerStr item
  (match l with
   | 't' :: 'v' :: c :: _ => isWs c
   | _ => false) ||
  startsW l (lit "movie") || startsW l (lit "short") ||
  startsW l (lit "special") || startsW l (lit "mini")

/-- `re.match(r"\d{4}", item)`. -/
def isYearsItem (item : Str) : Bool := (exactly isDigitC 4 item).isSome

/-- `re.search(r"\d+\s*(h|m)", item)`. -/
def isDurationItem (item : Str) : Bool :=
  searchPos
    (fun t =>
      match many1 isDigitC t with
      | some u =>
        (match u.dropWhile (isWs ·) with
         | c :: _ => lowerChar c == 'h' || lowerChar c == 'm'
         | [] => false)
      | none => false)
    (lowerStr item)

/-- The series-name branch of `parse_series_metadata`: hero testid, else
`<title>` with trailing qualifiers stripped, else `og:title`. -/
def seriesNameOf (soup : Node) (title_id : Str) : Str :=
  match soup.findTestid (lit "hero__pageTitle") with
  | some node =>
    let name := node.textStrip
    if name ≠ [] then name else title_id
  | none =>
    match soup.findFirst (fun m => m.isElem && m.tagName == lit "title") with
    | some tag =>
      let raw := stripEndMatch imdbxSuffixAt tag.textStrip
      let raw := trimStr (stripEndMatch parenYearSuffixAt raw)
      if raw ≠ [] then raw else title_id
    | none =>
      match soup.findFirst
          (fun m => m.isElem && m.tagName == lit "meta" &&
            m.attr (lit "property") == some (lit "og:title")) with
      | some og =>
        (match og.attr (lit "content") with
         | some content => if content ≠ [] then trimStr content else title_id
         | none => title_id)
      | none => title_id

/-- One step of the inline hero `<ul>` item fold, the `elif` chain of the
source (content rating checked before the broader kind pattern). -/
def classifyHeroItem (m : SeriesMetadata) (item : Str) : SeriesMetadata :=
  if isContentRatingItem item then { m with content_rating := some item }
  else if isTypeItem item then { m with type := some item }
  else if isYearsItem item then { m with years := some item }
  else if isDurationItem item then { m with episode_duration := some item }
  else m

/-- Fold of the inline hero `<ul>` items. -/
def classifyHeroItems (meta : SeriesMetadata) (items : List Str) : SeriesMetadata :=
  items.foldl classifyHeroItem meta

/-- The hero `<ul>` items: parent of the `hero__pageTitle` node, its first
`ul` descendant, that node's `li` texts. -/
def heroListItems (soup : Node) : List Str :=
  match (soup.descWithParent.find?
      (fun np => np.1.attr (lit "data-testid") == some (lit "hero__pageTitle"))) with
  | some (_, par) =>
    (match par.findFirst (fun m => m.isElem && m.tagName == lit "ul") with
     | some ul => (ul.findAllTag (lit "li")).map (·.textStrip)
     | none => [])
  | none => []

/-- Tag collection: text of every `/interest/inNNN` link, order preserved,
duplicates suppressed by text. -/
def collectTags (soup : Node) : List Str :=
  (soup.findAll
      (fun m => m.isElem && m.tagName == lit "a" &&
        (match m.attr (lit "href") with
         | some h => interestHref h
         | none => false))).foldl
    (fun acc a =>
      let text := a.textStrip
      if text ≠ [] && !acc.contains text then acc ++ [text] else acc)
    []

/-- The score half of the aggregate-rating stage: `imdb_rating` from the
score div's first span. -/
def metaScoreUpd (agg : Node) (meta : SeriesMetadata) : SeriesMetadata :=
  match agg.findTestid (lit "hero-rating-bar__aggregate-rating__score") with
  | some score_div =>
    (match score_div.findAllTag (lit "span") with
     | sp :: _ => { meta with imdb_rating := some (sp.textStrip ++ lit "/10") }
     | [] => meta)
  | none => meta

/-- The aggregate-rating stage of `parse_series_metadata`: score from the
score div's first span, vote count from the last `/10 <count>` match of
the whole block's text. -/
def metaAggStage (soup : Node) (meta : SeriesMetadata) : SeriesMetadata :=
  match soup.findTestid (lit "hero-rating-bar__aggregate-rating") with
  | some agg =>
    (match (votesFindall agg.textSpStrip).getLast? with
     | some v => { metaScoreUpd agg meta with rating_count := some v }
     | none => metaScoreUpd agg meta)
  | none => meta

/-- The popularity stage of `parse_series_metadata`. -/
def metaPopStage (soup : Node) (meta : SeriesMetadata) : SeriesMetadata :=
  match soup.findTestid (lit "hero-rating-bar__popularity__score") with
  | some pop => { meta with popularity := some pop.textStrip }
  | none => meta

/-- The tags stage of `parse_series_metadata`. -/
def metaTagsStage (soup : Node) (meta : SeriesMetadata) : SeriesMetadata :=
  if collectTags soup ≠ [] then { meta with tags := collectTags soup } else meta

/-- `parse_series_metadata(soup, title_id)`: the source's sequence of
in-place updates, stage by stage. -/
def parse_series_metadata (soup : Node) (title_id : Str) : SeriesMetadata :=
  let meta : SeriesMetadata := { title_id := title_id, series_name := title_id }
  let meta := { meta with series_name := seriesNameOf soup title_id }
  let meta := classifyHeroItems meta (heroListItems soup)
  metaTagsStage soup (metaPopStage soup (metaAggStage soup meta))

/-! ### Episode card helpers -/

/-- Split a srcset at every `,\s+(?=https?://)` boundary (`re.split`):
a comma, at least one whitespace, with `http://` or `https://` right
after; embedded commas not at such a boundary stay inside the entry. -/
def srcsetBoundary (s : Str) : Option Str :=
  match s with
  | ',' :: t =>
    (match many1 isWs t with
     | some rest =>
       if startsW rest (lit "http://") || startsW rest (lit "https://") then some rest
       else none
     | none => none)
  | _ => none

def splitSrcsetAux : Nat → Str → Str → List Str
  | 0, acc, _ => [acc.reverse]
  | _ + 1, acc, [] => [acc.reverse]
  | fuel + 1, acc, c :: t =>
    match srcsetBoundary (c :: t) with
    | some rest => acc.reverse :: splitSrcsetAux fuel [] rest
    | none => splitSrcsetAux fuel (c :: acc) t

def splitSrcset (s : Str) : List Str := splitSrcsetAux s.length [] s

/-- Python `entry.rsplit(None, 1)`: split off the last whitespace-separated
token; leading content keeps its own spacing, the separator run vanishes. -/
def rsplitWs1 (s : Str) : List Str :=
  let r := s.reverse.dropWhile (isWs ·)
  if r == [] then []
  else
    let tok := (r.takeWhile (fun c => !isWs c)).reverse
    let rest := r.dropWhile (fun c => !isWs c)
    if rest == [] then [tok]
    else [(rest.dropWhile (isWs ·)).reverse, tok]

/-- Python string `<` (lexicographic by code point), for tuple `max`. -/
def strLt : Str → Str → Bool
  | [], [] => false
  | [], _ :: _ => true
  | _ :: _, [] => false
  | a :: as, b :: bs =>
    if a.toNat < b.toNat then true
    else if b.toNat < a.toNat then false
    else strLt as bs

/-- `x > y` on `(width, url)` tuples, Python tuple comparison. -/
def tupGt (x y : Nat × Str) : Bool :=
  y.1 < x.1 || (x.1 == y.1 && strLt y.2 x.2)

/-- Python `max` over a nonempty list (strictly-greater replaces). -/
def pyMaxT (c : Nat × Str) (cs : List (Nat × Str)) : Nat × Str :=
  cs.foldl (fun acc x => if tupGt x acc then x else acc) c

/-- The `(width, url)` candidates `_best_image` builds from a srcset. -/
def srcsetCandidates (srcset : Str) : List (Nat × Str) :=
  (splitSrcset (trimStr srcset)).filterMap
    (fun entry =>
      match rsplitWs1 entry with
      | [url, descriptor] =>
        let ds := descriptor.filter (isDigitC ·)
        if ds == [] then none else some (strToNat ds, trimStr url)
      | _ => none)

/-- `_best_image(img)`. -/
def best_image (img : Node) : Option Str :=
  let srcset := img.attrD (lit "srcset") []
  if srcset ≠ [] then
    match srcsetCandidates srcset with
    | [] => img.attr (lit "src")
    | c :: cs => some (pyMaxT c cs).2
  else img.attr (lit "src")

/-- `_find_episode_cards(soup)`: the three-tier fallback. -/
def find_episode_cards (soup : Node) : List Node :=
  let tier1 :=
    (soup.findAllTag (lit "article")).filter
      (fun a =>
        (a.descendants.any
          (fun m => m.isElem && m.tagName == lit "a" &&
            (match m.attr (lit "href") with
             | some h => epLinkSearch h
             | none => false))) &&
        seSearchCI a.textRaw)
  if !tier1.isEmpty then tier1
  else
    let tier2 :=
      (soup.findAll
          (fun m =>
            match m.attr (lit "data-testid") with
            | some v => containsSub (lowerStr v) (lit "episode")
            | none => false)).filter
        (fun t => seSearchCI t.textRaw)
    if !tier2.isEmpty then tier2
    else (soup.findAllTag (lit "article")).filter (fun a => seSearchCI a.textRaw)

/-- `_find_title_text(card)`. -/
def find_title_text (card : Node) : Str :=
  match card.findTestid (lit "slate-list-card-title") with
  | some node => node.textStrip
  | none =>
    match (card.findAll
        (fun m => m.isElem &&
          (m.tagName == lit "div" || m.tagName == lit "h4" ||
           m.tagName == lit "h3" || m.tagName == lit "span"))).find?
        (fun t =>
          let text := t.textStrip
          seSearchCI text && text.length < 200) with
    | some t => t.textStrip
    | none =>
      match card.findFirst
          (fun m => m.isElem && m.tagName == lit "a" &&
            (m.attr (lit "aria-label")).isSome) with
      | some link => (link.attr (lit "aria-label")).getD []
      | none => []

/-- `_find_air_date(card)`. -/
def find_air_date (card : Node) : Str :=
  match (card.findAll
      (fun m => m.isElem &&
        (m.tagName == lit "span" || m.tagName == lit "div" ||
         m.tagName == lit "time"))).find?
      (fun t =>
        let text := t.textStrip
        airDateSearch text && text.length < 50) with
  | some t => t.textStrip
  | none =>
    match (card.findAll
        (fun m => m.isElem &&
          (m.tagName == lit "span" || m.tagName == lit "div"))).find?
        (fun t =>
          let cls := lowerStr (t.attrD (lit "class") [])
          containsSub cls (lit "date") || containsSub cls (lit "air")) with
    | some t => t.textStrip
    | none => []

/-- `_find_description(card)`. -/
def find_description (card : Node) : Str :=
  match [lit "plot", lit "synopsis", lit "description", lit "html-content"].firstM
      (fun tid =>
        card.findFirst
          (fun m =>
            match m.attr (lit "data-testid") with
            | some v => containsSub (lowerStr v) (lowerStr tid)
            | none => false)) with
  | some node => node.textStrip
  | none =>
    match ((card.findAllTag (lit "div")).filter
        (fun d => d.attr (lit "role") == some (lit "presentation"))).find?
        (fun d => 30 < d.textStrip.length) with
    | some d => d.textStrip
    | none =>
      let candidates :=
        ((card.findAll
            (fun m => m.isElem &&
              (m.tagName == lit "div" || m.tagName == lit "p"))).filter
          (fun t =>
            !(t.descendants.any
              (fun m => m.isElem &&
                (m.tagName == lit "div" || m.tagName == lit "p"))))).filterMap
          (fun t =>
            let text := t.textStrip
            if 30 < text.length && !seSearchCS text &&
                !descDateSearch (text.take 15) then some text
            else none)
      match candidates with
      | [] => []
      | c :: cs => cs.foldl (fun acc x => if acc.length < x.length then x else acc) c

/-- `_find_rating(card)`. -/
def find_rating (card : Node) : Str :=
  match [lit "ratingGroup--imdb-rating", lit "ratingGroup--container"].firstM
      (fun tid =>
        match card.findTestid tid with
        | some node =>
          (match firstNumDotRun (node.attrD (lit "aria-label") []) with
           | some score =>
             let full := node.textSpStrip
             (match parenVotesSearch full with
              | some votes => some (score ++ lit "/10 (" ++ votes ++ lit ")")
              | none => some (score ++ lit "/10"))
           | none => none)
        | none => none) with
  | some r => r
  | none =>
    match card.findFirst
        (fun m => m.isElem && m.tagName == lit "span" &&
          (match m.attr (lit "aria-label") with
           | some v => containsSub (lowerStr v) (lit "imdbx rating")
           | none => false)) with
    | some node =>
      (match firstNumDotRun (node.attrD (lit "aria-label") []) with
       | some score => score ++ lit "/10"
       | none => freeTextRating card)
    | none => freeTextRating card
where
  /-- the final free-text fallback of `_find_rating` -/
  freeTextRating (card : Node) : Str :=
    let full := card.textSp
    match freeRatingSearch full with
    | some score =>
      (match parenVotesSearch full with
       | some votes => score ++ lit "/10 (" ++ votes ++ lit ")"
       | none => score ++ lit "/10")
    | none => lit "N/A"

/-- `_find_cover_image(card)`. -/
def find_cover_image (card : Node) : Option Str :=
  let imgs := card.findAllTag (lit "img")
  match imgs.find?
      (fun i =>
        containsSub (i.attrD (lit "srcset") [] ++ i.attrD (lit "src") [])
          (lit "media-amazon.com")) with
  | some i => best_image i
  | none =>
    match imgs.find?
        (fun i =>
          (match i.attr (lit "width") with
           | some w =>
             (match pyInt w with
              | some v => 80 ≤ v
              | none => false)
           | none => false) ||
          (let src := i.attrD (lit "src") []
           src ≠ [] && !endsW src (lit ".svg") &&
             !containsSub (lowerStr src) (lit "icon"))) with
    | some i => best_image i
    | none => none

/-- `_find_episode_link(card)`. -/
def find_episode_link (card : Node) : Str :=
  let withBase (href : Str) : Str :=
    if startsW href (lit "/") then BASE_URL ++ href else href
  match (card.findAll
      (fun m => m.isElem && m.tagName == lit "a" &&
        (m.attr (lit "href")).isSome)).find?
      (fun a =>
        let href := a.attrD (lit "href") []
        titleLinkSearch href && containsSub href (lit "ref_=ttep")) with
  | some a => withBase (a.attrD (lit "href") [])
  | none =>
    match card.findFirst
        (fun m => m.isElem && m.tagName == lit "a" &&
          (match m.attr (lit "href") with
           | some h => titleLinkSearch h
           | none => false)) with
    | some a => withBase (a.attrD (lit "href") [])
    | none => []

/-- The first (whitespace-swallowing) middle-dot/bullet split of the raw
title text: `re.split(r"\s*[∙·]\s*", raw, maxsplit=1)`. -/
def splitBullet1 (raw : Str) : List Str :=
  go [] raw
where
  go (acc : Str) : Str → List Str
  | [] => [acc.reverse]
  | c :: t =>
    if c == '∙' || c == '·' then [rstripStr acc.reverse, lstripStr t]
    else go (c :: acc) t

/-- One `Episode` per card, exactly the body of the `parse_episodes` loop. -/
def mkEpisode (card : Node) : Episode :=
  let raw := find_title_text card
  let parts := splitBullet1 raw
  let episode_code := trimStr (parts.headD [])
  let ep_title := if 1 < parts.length then trimStr (parts.getD 1 []) else raw
  let (season_num, episode_num) := (parseSEcode episode_code).getD (0, 0)
  { episode_code := episode_code
    title := ep_title
    season := season_num
    episode := episode_num
    air_date := find_air_date card
    description := find_description card
    rating := find_rating card
    cover_image := find_cover_image card
    cover_image_local := none
    imdb_url := find_episode_link card }

/-- `parse_episodes(soup)` (the generator, materialised as a list). -/
def parse_episodes (soup : Node) : List Episode :=
  (find_episode_cards soup).map mkEpisode

/-! ### Season discovery -/

/-- Strategy 1 of `parse_season_numbers`: `data-testid="tab-season-entry"`
texts that are digit strings. -/
def seasonTabs (soup : Node) : List Nat :=
  (soup.findAll
      (fun m => m.attr (lit "data-testid") == some (lit "tab-season-entry"))).filterMap
    (fun t =>
      let s := t.textStrip
      if isDigits s then some (strToNat s) else none)

/-- Strategy 2: `select option` values that are digit strings. -/
def seasonOptions (soup : Node) : List Nat :=
  (selectOptions false soup).filterMap
    (fun opt =>
      let v := trimStr (opt.attrD (lit "value") [])
      if isDigits v then some (strToNat v) else none)

/-- Strategy 3: hrefs containing `?season=N`. -/
def seasonHrefs (soup : Node) : List Nat :=
  (soup.findAll
      (fun m => m.isElem && m.tagName == lit "a" &&
        (match m.attr (lit "href") with
         | some h => seasonSearch h
         | none => false))).filterMap
    (fun a => seasonGroup (a.attrD (lit "href") []))

/-- Python `set` accumulation: add an element unless already present. -/
def setAdd (acc : List Nat) (n : Nat) : List Nat :=
  if acc.contains n then acc else acc ++ [n]

/-- The distinct values of a list, first occurrence order — the contents
of the Python `set` after adding every element. -/
def setOfList (l : List Nat) : List Nat := l.foldl setAdd []

/-- `parse_season_numbers(soup)`: accumulate into a set, strategy by
strategy while empty, then `sorted`. -/
def parse_season_numbers (soup : Node) : List Nat :=
  let found := setOfList (seasonTabs soup)
  let found := if found.isEmpty then setOfList (seasonOptions soup) else found
  let found := if found.isEmpty then setOfList (seasonHrefs soup) else found
  List.insertionSort (· ≤ ·) found

/-! ### Concrete documents used by witnesses and counterexamples -/

/-- An episode card: article with an episode permalink and a bullet title. -/
def sampleCard (code titleTxt : Str) : Node :=
  .elem (lit "article") []
    [ .elem (lit "a") [(lit "href", lit "/title/tt0000001/?ref_=ttep_ep1")] [],
      .elem (lit "div") [] [.text (code ++ lit " ∙ " ++ titleTxt)] ]

/-- Two cards carrying the same `S1.E1` code. -/
def dupPairDoc : Node :=
  .elem (lit "[document]") []
    [sampleCard (lit "S1.E1") (lit "Pilot"), sampleCard (lit "S1.E1") (lit "Again")]

/-- Two cards with distinct codes. -/
def distinctPairDoc : Node :=
  .elem (lit "[document]") []
    [sampleCard (lit "S1.E1") (lit "Pilot"), sampleCard (lit "S1.E2") (lit "Second")]

/-- A document with no episode cards at all. -/
def emptyDoc : Node := .elem (lit "[document]") [] []

example :
    (parse_episodes dupPairDoc).map (fun e => (e.season, e.episode)) = [(1, 1), (1, 1)] := by
  decide
example : (parse_episodes distinctPairDoc).map (·.title) = [lit "Pilot", lit "Second"] := by
  decide
example : parse_episodes emptyDoc = [] := rfl

/-! ## Browser layer (src/imdbx/_browser.py) -/

/-- `_INLINE_MORE = re.compile(r"\d+\s+more|see\s+all|load\s+more", re.I)`,
as a `.search`. -/
def inlineMoreAt (s : Str) : Bool :=
  (match many1 isDigitC s with
   | some t =>
     (match many1 isWs t with
      | some u => (litM (lit "more") u).isSome
      | none => false)
   | none => false) ||
  (match litM (lit "see") s with
   | some t =>
     (match many1 isWs t with
      | some u => (litM (lit "all") u).isSome
      | none => false)
   | none => false) ||
  (match litM (lit "load") s with
   | some t =>
     (match many1 isWs t with
      | some u => (litM (lit "more") u).isSome
      | none => false)
   | none => false)

def inline_more (s : Str) : Bool := searchPos inlineMoreAt (lowerStr s)

/-- `_is_navigating_href(href)`: true iff clicking the href would leave
the page (non-empty after strip, not `#`-prefixed, not `javascript:`). -/
def is_navigating_href (href : Option Str) : Bool :=
  match href with
  | none => false
  | some href =>
    if href == [] then false
    else
      let h := trimStr href
      if h == [] || startsW h (lit "#") || startsW (lowerStr h) (lit "javascript:") then
        false
      else true

/-- The element kinds the load-more finder distinguishes. -/
inductive ETag where
  | button
  | a
  | other
deriving DecidableEq

/-- A rendered page element as the Playwright locators of `_find_loadmore`
see it: tag, attributes, inner text, visibility/enabled state, and the
`data-testid` values of the element itself and of its ancestors. -/
structure Elem where
  tag : ETag
  href : Option Str := none
  innerText : Str := []
  ariaLabel : Option Str := none
  ariaDisabled : Option Str := none
  testid : Option Str := none
  ancTestids : List Str := []
  visible : Bool := true
  enabled : Bool := true
deriving DecidableEq

/-- A rendered page: its elements in DOM order. -/
abbrev PageElems := List Elem

/-- `el.get_attribute("href") or ""`. -/
def Elem.hrefOrEmpty (e : Elem) : Str := e.href.getD []

/-- `(await el.get_attribute("aria-disabled")) != "true"`. -/
def Elem.adNotTrue (e : Elem) : Bool := e.ariaDisabled != some (lit "true")

/-- Strategy 1: first visible `<button>` whose text matches `_INLINE_MORE`
and that is enabled. -/
def strategy1 (page : PageElems) : Option Elem :=
  (page.filter (fun e => e.tag == ETag.button && e.visible)).find?
    (fun e => inline_more (trimStr e.innerText) && e.enabled)

/-- Strategy 2: first visible `<a>` without a navigating href whose text
matches, not aria-disabled. -/
def strategy2 (page : PageElems) : Option Elem :=
  (page.filter (fun e => e.tag == ETag.a && e.visible)).find?
    (fun e =>
      !is_navigating_href (some e.hrefOrEmpty) &&
      inline_more (trimStr e.innerText) && e.adNotTrue)

/-- The selector of strategy 3 for one `(fragment, tag)` pair: a visible
element of that tag whose own or whose ancestor `data-testid` contains the
fragment. -/
def s3Sel (frag : Str) (t : ETag) (e : Elem) : Bool :=
  e.tag == t && e.visible &&
    ((match e.testid with
      | some v => containsSub v frag
      | none => false) ||
     e.ancTestids.any (fun v => containsSub v frag))

/-- The `(fragment, tag)` iteration order of strategy 3. -/
def s3Combos : List (Str × ETag) :=
  [(lit "see-more", ETag.button), (lit "see-more", ETag.a),
   (lit "load-more", ETag.button), (lit "load-more", ETag.a),
   (lit "expand", ETag.button), (lit "expand", ETag.a)]

/-- Strategy 3: per combo only `loc.first` is examined; a navigating link
or a disabled first element just moves on to the next combo. -/
def strategy3 : List (Str × ETag) → PageElems → Option Elem
  | [], _ => none
  | (frag, t) :: rest, page =>
    match (page.filter (s3Sel frag t)).head? with
    | none => strategy3 rest page
    | some e =>
      if t == ETag.a && is_navigating_href (some e.hrefOrEmpty) then strategy3 rest page
      else if e.adNotTrue then some e
      else strategy3 rest page

/-- The selector of strategy 4: visible element of the tag whose
`aria-label` contains `more` or `see all` (case-insensitively). -/
def s4Sel (t : ETag) (e : Elem) : Bool :=
  e.tag == t && e.visible &&
    (match e.ariaLabel with
     | some v => containsSub (lowerStr v) (lit "more") ||
         containsSub (lowerStr v) (lit "see all")
     | none => false)

/-- Strategy 4: all matches of the tag are walked; navigating links and
aria-disabled elements are skipped. -/
def strategy4 : List ETag → PageElems → Option Elem
  | [], _ => none
  | t :: rest, page =>
    match (page.filter (s4Sel t)).find?
        (fun e =>
          !(t == ETag.a && is_navigating_href (some e.hrefOrEmpty)) && e.adNotTrue) with
    | some e => some e
    | none => strategy4 rest page

/-- `_find_loadmore(page)`: the four ordered strategies, first match wins. -/
def find_loadmore (page : PageElems) : Option Elem :=
  match strategy1 page with
  | some e => some e
  | none =>
    match strategy2 page with
    | some e => some e
    | none =>
      match strategy3 s3Combos page with
      | some e => some e
      | none => strategy4 [ETag.button, ETag.a] page

/-! ### Load-more expansion loop (`_expand_episodes`) -/

/-- Outcome of `wait_for_function` on the card-count growth. -/
inductive GrowthWait where
  | grew
  | timedOut
deriving DecidableEq

/-- Outcome of the `networkidle` fallback wait. -/
inductive IdleWait where
  | idle
  | timedOut
deriving DecidableEq

/-- What one click-iteration of the loop observes after the click. -/
structure ClickRound where
  urlChanged : Bool
  growth : GrowthWait
  netIdle : IdleWait
deriving DecidableEq

/-- How the `while True` loop of `_expand_episodes` ends. -/
inductive LoopExit where
  /-- `_find_loadmore` returned `None`: state `Done` -/
  | noCandidate
  /-- URL drift detected: re-navigate back and `break` (state `Aborted`) -/
  | abortedNav
  /-- the `networkidle` fallback itself timed out; the `PWTimeout` escapes
  the inner handler and the outer `except PWTimeout: break` fires -/
  | waitTimeout
deriving DecidableEq

/-- The post-click portion of one loop iteration: `None` means the loop
continues (re-enters `Scanning`), otherwise it exits with the given cause.
Direct translation of the nested `try`/`except` of `_expand_episodes`. -/
def waiting_phase (r : ClickRound) : Option LoopExit :=
  if r.urlChanged then some LoopExit.abortedNav
  else
    match r.growth with
    | GrowthWait.grew => none
    | GrowthWait.timedOut =>
      match r.netIdle with
      | IdleWait.idle => none
      | IdleWait.timedOut => some LoopExit.waitTimeout

/-- The whole expansion loop over a script of scan results: `none` entries
mean no candidate was found on that scan.  Returns the click count and the
exit cause. -/
def expand_run : List (Option ClickRound) → Nat × LoopExit
  | [] => (0, LoopExit.noCandidate)
  | none :: _ => (0, LoopExit.noCandidate)
  | some r :: rest =>
    match waiting_phase r with
    | some e => (1, e)
    | none =>
      let (n, e) := expand_run rest
      (n + 1, e)

/-! ## HTTP layer (src/imdbx/_http.py) -/

/-- What one GET attempt yields: a parsed document, or a
`RequestException`-class failure (transport error or a non-2xx status
turned into an error by `raise_for_status`). -/
inductive FetchOutcome where
  | success (doc : Node)
  | failure

/-- The observable run of `http_fetch`: its return value, how many
attempts ran, and the back-off sleeps performed between attempts. -/
structure FetchTrace where
  result : Option Node
  attemptsMade : Nat
  sleeps : List ℚ

/-- The retry loop of `http_fetch`, fuel = attempts remaining.  On failure
with attempts left it sleeps `1.5 * attempt` and retries; after the last
failed attempt it returns `None`. -/
def httpFetchAux (o : Nat → FetchOutcome) : Nat → Nat → FetchTrace
  | 0, attempt => { result := none, attemptsMade := attempt - 1, sleeps := [] }
  | fuel + 1, attempt =>
    match o attempt with
    | FetchOutcome.success d => { result := some d, attemptsMade := attempt, sleeps := [] }
    | FetchOutcome.failure =>
      if fuel = 0 then { result := none, attemptsMade := attempt, sleeps := [] }
      else
        let t := httpFetchAux o fuel (attempt + 1)
        { result := t.result, attemptsMade := t.attemptsMade,
          sleeps := ((3 : ℚ) / 2 * attempt) :: t.sleeps }

/-- `http_fetch(url, session, retries=3)` with the network behaviour made
explicit as the outcome of each numbered attempt. -/
def http_fetch (o : Nat → FetchOutcome) : FetchTrace := httpFetchAux o 3 1

/-! ### Image downloading -/

def ALLOWED_EXTS : List Str :=
  [lit ".jpg", lit ".jpeg", lit ".png", lit ".webp", lit ".gif"]

/-- `urlparse(url).path`: strip the fragment, then — when a scheme and
netloc are present — keep from the first `/` after the authority, and cut
the query. -/
def urlPathOf (url : Str) : Str :=
  let noFrag := url.takeWhile (fun c => c != '#')
  match sub3Split noFrag with
  | some after =>
    let afterHost := after.dropWhile (fun c => !(c == '/' || c == '?'))
    (match afterHost with
     | '/' :: _ => afterHost.takeWhile (fun c => c != '?')
     | _ => [])
  | none => noFrag.takeWhile (fun c => c != '?')
where
  /-- the part after the first `://`, if any -/
  sub3Split : Str → Option Str
  | [] => none
  | c :: t =>
    match litM (lit "://") (c :: t) with
    | some rest => some rest
    | none => sub3Split t

/-- `os.path.splitext(path)[1]`: the extension of the last path component;
leading dots of the basename never start an extension. -/
def splitextExt (p : Str) : Str :=
  let base := (p.reverse.takeWhile (fun c => c != '/')).reverse
  let rest := base.dropWhile (fun c => c == '.')
  if rest.contains '.' then
    ('.' :: (rest.reverse.takeWhile (fun c => c != '.')).reverse)
  else []

/-- `_ext_from_url(url)`. -/
def ext_from_url (url : Str) : Str :=
  let e := lowerStr (splitextExt (urlPathOf url))
  if ALLOWED_EXTS.contains e then e else lit ".jpg"

example : ext_from_url (lit "https://m.media-amazon.com/images/M/x._CR0,0,1000,563_.jpg?w=3") =
    lit ".jpg" := by decide
example : ext_from_url (lit "https://cdn.example/a/b.WEBP") = lit ".webp" := by decide
example : ext_from_url (lit "https://cdn.example/a/noext") = lit ".jpg" := by decide

/-- `str(images_dir / title_id / f"S{s}E{e}{ext}")` for an episode with a
cover URL. -/
def destPathOf (images_dir title_id : Str) (ep : Episode) (url : Str) : Str :=
  images_dir ++ lit "/" ++ title_id ++ lit "/" ++
    lit "S" ++ natToStr ep.season ++ lit "E" ++ natToStr ep.episode ++ ext_from_url url

/-- The per-episode mutation of the job-collection loop in
`download_images`: clear the local path when the URL is absent or empty,
otherwise assign the destination path and emit a `(url, dest)` job. -/
def assignEp (images_dir title_id : Str) (ep : Episode) :
    Episode × Option (Str × Str) :=
  match ep.cover_image with
  | none => ({ ep with cover_image_local := none }, none)
  | some url =>
    if url == [] then ({ ep with cover_image_local := none }, none)
    else
      let dest := destPathOf images_dir title_id ep url
      ({ ep with cover_image_local := some dest }, some (url, dest))

/-- The whole job-collection pass of `download_images`: the updated
aggregate and the jobs, season by season, episode by episode. -/
def download_images_assign (info : TitleInfo) (images_dir : Str) :
    TitleInfo × List (Str × Str) :=
  let title_id := info.meta.title_id
  let r :=
    info.seasons.foldl
      (fun (acc : List (Nat × List Episode) × List (Str × Str)) p =>
        let r2 :=
          p.2.foldl
            (fun (a : List Episode × List (Str × Str)) ep =>
              let r3 := assignEp images_dir title_id ep
              (r3.1 :: a.1, match r3.2 with | some j => j :: a.2 | none => a.2))
            ([], acc.2)
        ((p.1, r2.1.reverse) :: acc.1, r2.2))
      ([], [])
  ({ info with seasons := r.1.reverse }, r.2.reverse)

/-- `_download_one(url, dest)` against an explicit file system (the set of
existing paths) and a per-attempt success oracle: returns whether it
succeeded and whether it wrote `dest`.  An existing destination is
returned as success without any write. -/
def download_one (dest : Str) (fs : List Str) (ok : Nat → Bool) : Bool × Bool :=
  if fs.contains dest then (true, false)
  else if ok 1 || ok 2 || ok 3 then (true, true)
  else (false, false)

/-- The sequential model of `_download_all`: thread the file system
through the jobs list; collect the set of paths written. -/
def downloadPhase (net : Str → Nat → Bool) :
    List (Str × Str) → List Str → List Str × List Str
  | [], fs => (fs, [])
  | (_, dest) :: rest, fs =>
    let wrote := (download_one dest fs (net dest)).2
    let fs1 := if wrote then dest :: fs else fs
    let r := downloadPhase net rest fs1
    (r.1, (if wrote then [dest] else []) ++ r.2)

/-- `download_images(title_info, images_dir)`: assign the local paths,
then run the downloads; the aggregate the caller sees is the one produced
by the assignment pass, whatever the network did. -/
def download_images (info : TitleInfo) (images_dir : Str) (fs : List Str)
    (net : Str → Nat → Bool) : TitleInfo × List Str × List Str :=
  let r := download_images_assign info images_dir
  let d := downloadPhase net r.2 fs
  (r.1, d.1, d.2)

/-! ## JSON persistence (models.TitleInfo.save / imdbx.load) -/

/-- The JSON documents this program writes and reads. -/
inductive Json where
  | null
  | str (s : Str)
  | num (n : Nat)
  | arr (xs : List Json)
  | obj (kvs : List (Str × Json))

/-- Python `None`-or-string values as JSON. -/
def jOptStr : Option Str → Json
  | none => Json.null
  | some s => Json.str s

/-- `asdict(episode)` as serialised by `TitleInfo.save`. -/
def Episode.to_dict (e : Episode) : Json :=
  Json.obj
    [(lit "episode_code", Json.str e.episode_code),
     (lit "title", Json.str e.title),
     (lit "season", Json.num e.season),
     (lit "episode", Json.num e.episode),
     (lit "air_date", Json.str e.air_date),
     (lit "description", Json.str e.description),
     (lit "rating", Json.str e.rating),
     (lit "cover_image", jOptStr e.cover_image),
     (lit "cover_image_local", jOptStr e.cover_image_local),
     (lit "imdb_url", Json.str e.imdb_url)]

/-- The `"seasons"` object: keys are `str(season_number)`. -/
def seasonsToJson (seasons : List (Nat × List Episode)) : Json :=
  Json.obj (seasons.map (fun p => (natToStr p.1, Json.arr (p.2.map Episode.to_dict))))

/-- `TitleInfo.to_dict`: all metadata fields merged with `"seasons"`.
This is exactly what `save` writes. -/
def TitleInfo.to_dict (t : TitleInfo) : Json :=
  Json.obj
    [(lit "title_id", Json.str t.meta.title_id),
     (lit "series_name", Json.str t.meta.series_name),
     (lit "type", jOptStr t.meta.type),
     (lit "years", jOptStr t.meta.years),
     (lit "content_rating", jOptStr t.meta.content_rating),
     (lit "episode_duration", jOptStr t.meta.episode_duration),
     (lit "imdb_rating", jOptStr t.meta.imdb_rating),
     (lit "rating_count", jOptStr t.meta.rating_count),
     (lit "popularity", jOptStr t.meta.popularity),
     (lit "tags", Json.arr (t.meta.tags.map Json.str)),
     (lit "seasons", seasonsToJson t.seasons)]

/-- `data.get(key)` on a JSON object. -/
def Json.get : Json → Str → Option Json
  | Json.obj kvs, k => (kvs.find? (fun kv => kv.1 == k)).map (·.2)
  | _, _ => none

/-- `data.get(key, default)` for string fields. -/
def Json.getStrD (j : Json) (k : Str) (d : Str) : Str :=
  match j.get k with
  | some (Json.str s) => s
  | _ => d

/-- `data.get(key)` for optional string fields (JSON `null` ↦ `None`). -/
def Json.getOptStr (j : Json) (k : Str) : Option Str :=
  match j.get k with
  | some (Json.str s) => some s
  | _ => none

/-- `data.get(key, default)` for integer fields. -/
def Json.getNatD (j : Json) (k : Str) (d : Nat) : Nat :=
  match j.get k with
  | some (Json.num n) => n
  | _ => d

/-- `data.get("tags", [])`. -/
def Json.getStrList (j : Json) (k : Str) : List Str :=
  match j.get k with
  | some (Json.arr xs) =>
    xs.filterMap (fun x => match x with | Json.str s => some s | _ => none)
  | _ => []

/-- One episode of `load`'s inner comprehension. -/
def episodeFromJson (j : Json) : Episode :=
  { episode_code := j.getStrD (lit "episode_code") []
    title := j.getStrD (lit "title") []
    season := j.getNatD (lit "season") 0
    episode := j.getNatD (lit "episode") 0
    air_date := j.getStrD (lit "air_date") []
    description := j.getStrD (lit "description") []
    rating := j.getStrD (lit "rating") (lit "N/A")
    cover_image := j.getOptStr (lit "cover_image")
    cover_image_local := j.getOptStr (lit "cover_image_local")
    imdb_url := j.getStrD (lit "imdb_url") [] }

/-- `imdbx.load(path)` on the parsed JSON document: rebuild the metadata
with `.get` defaults and every season with `int(season_key)` keys. -/
def load (data : Json) : TitleInfo :=
  let meta : SeriesMetadata :=
    { title_id := data.getStrD (lit "title_id") []
      series_name := data.getStrD (lit "series_name") []
      type := data.getOptStr (lit "type")
      years := data.getOptStr (lit "years")
      content_rating := data.getOptStr (lit "content_rating")
      episode_duration := data.getOptStr (lit "episode_duration")
      imdb_rating := data.getOptStr (lit "imdb_rating")
      rating_count := data.getOptStr (lit "rating_count")
      popularity := data.getOptStr (lit "popularity")
      tags := data.getStrList (lit "tags") }
  let seasons :=
    match data.get (lit "seasons") with
    | some (Json.obj kvs) =>
      kvs.map (fun kv =>
        (strToNat kv.1,
         match kv.2 with
         | Json.arr eps => eps.map episodeFromJson
         | _ => []))
    | _ => []
  { meta := meta, seasons := seasons }

/-! # Theorems -/

/-! ## C2 — load-more expansion after a growth-wait timeout -/

/-- C2 (counterexample): when the post-click growth wait times out AND the
`networkidle` fallback wait also times out, the `PWTimeout` raised by the
fallback escapes the inner handler and hits the outer
`except PWTimeout: break`, so the loop terminates instead of re-entering
`Scanning` — against the claim that it re-scans regardless of the
fallback's outcome.  With a second scan scripted, the run never reaches
it: the exit cause is the wait timeout, not `noCandidate`. -/
theorem c2_counterexample :
    waiting_phase ⟨false, GrowthWait.timedOut, IdleWait.timedOut⟩ =
        some LoopExit.waitTimeout ∧
      expand_run [some ⟨false, GrowthWait.timedOut, IdleWait.timedOut⟩, none] =
        (1, LoopExit.waitTimeout) ∧
      (expand_run [some ⟨false, GrowthWait.timedOut, IdleWait.timedOut⟩, none]).2 ≠
        LoopExit.noCandidate :=
  ⟨rfl, rfl, by decide⟩

/-- C2 (amended): when the growth wait times out, the loop falls back to
the `networkidle` wait; if that fallback succeeds the loop re-enters
`Scanning` (the run continues with the next scripted scan), and if the
fallback itself times out the loop terminates. -/
theorem c2_growth_timeout_fallback (r : ClickRound) (h1 : r.urlChanged = false)
    (h2 : r.growth = GrowthWait.timedOut) :
    waiting_phase r =
        (if r.netIdle = IdleWait.idle then none else some LoopExit.waitTimeout) ∧
      ∀ rest, r.netIdle = IdleWait.idle →
        expand_run (some r :: rest) = ((expand_run rest).1 + 1, (expand_run rest).2) := by
  obtain ⟨u, g, n⟩ := r
  subst h1; subst h2
  cases n <;>
    simp [waiting_phase, expand_run]

/-- C2 witness: a concrete round with a growth timeout and a successful
fallback re-enters scanning; with an empty remaining script the loop then
simply finds no candidate. -/
theorem c2_growth_timeout_fallback_witness :
    waiting_phase ⟨false, GrowthWait.timedOut, IdleWait.idle⟩ = none ∧
      expand_run [some ⟨false, GrowthWait.timedOut, IdleWait.idle⟩] =
        (1, LoopExit.noCandidate) := by
  have h := c2_growth_timeout_fallback ⟨false, GrowthWait.timedOut, IdleWait.idle⟩ rfl rfl
  exact ⟨by simpa using h.1, by simpa using h.2 [] rfl⟩

/-! ## C6 — fetch-client retry behaviour -/

/-- C6: `http_fetch` makes at most 3 attempts with `1.5 s × attempt`
back-off between them; two transport failures followed by a success
return that attempt's document; three failures return no document (and,
the embedding being a total function, nothing is raised); the result is
absent exactly when all three attempts failed. -/
theorem c6_http_fetch_retries (o : Nat → FetchOutcome) (d : Node) :
    (http_fetch o).attemptsMade ≤ 3 ∧
      (∀ d1, o 1 = FetchOutcome.success d1 →
        http_fetch o = ⟨some d1, 1, []⟩) ∧
      (o 1 = FetchOutcome.failure → o 2 = FetchOutcome.failure →
        o 3 = FetchOutcome.success d →
        http_fetch o = ⟨some d, 3, [3 / 2, 3]⟩) ∧
      (o 1 = FetchOutcome.failure → o 2 = FetchOutcome.failure →
        o 3 = FetchOutcome.failure →
        http_fetch o = ⟨none, 3, [3 / 2, 3]⟩) ∧
      ((http_fetch o).result = none ↔
        o 1 = FetchOutcome.failure ∧ o 2 = FetchOutcome.failure ∧
          o 3 = FetchOutcome.failure) := by
  rcases h1 : o 1 with d1 | _
  · refine ⟨by simp [http_fetch, httpFetchAux, h1], ?_, ?_, ?_, ?_⟩
    · intro d1x hx; cases hx; simp [http_fetch, httpFetchAux, h1]
    · intro hc; cases hc
    · intro hc; cases hc
    · simp [http_fetch, httpFetchAux, h1]
  · rcases h2 : o 2 with d2 | _
    · refine ⟨by simp [http_fetch, httpFetchAux, h1, h2], ?_, ?_, ?_, ?_⟩
      · intro d1x hx; cases hx
      · intro _ hc; cases hc
      · intro _ hc; cases hc
      · simp [http_fetch, httpFetchAux, h1, h2]
    · rcases h3 : o 3 with d3 | _
      · refine ⟨by simp [http_fetch, httpFetchAux, h1, h2, h3], ?_, ?_, ?_, ?_⟩
        · intro d1x hx; cases hx
        · intro _ _ hc
          cases hc
          simp [http_fetch, httpFetchAux, h1, h2, h3]
        · intro _ _ hc; cases hc
        · simp [http_fetch, httpFetchAux, h1, h2, h3]
      · refine ⟨by simp [http_fetch, httpFetchAux, h1, h2, h3], ?_, ?_, ?_, ?_⟩
        · intro d1x hx; cases hx
        · intro _ _ hc; cases hc
        · intro _ _ _
          simp [http_fetch, httpFetchAux, h1, h2, h3]
        · simp [http_fetch, httpFetchAux, h1, h2, h3]

/-! ## C8 — season-index discovery -/

/-- A season index page whose tab markers read 3, 1, 2, 1. -/
def seasonTabDoc : Node :=
  .elem (lit "[document]") []
    ((lit "3121").map (fun c =>
      .elem (lit "li") [(lit "data-testid", lit "tab-season-entry")] [.text [c]]))

/-- Accumulating into the set keeps it duplicate-free. -/
theorem foldl_setAdd_nodup (l : List Nat) :
    ∀ acc : List Nat, acc.Nodup → (l.foldl setAdd acc).Nodup := by
  induction l with
  | nil => intro acc h; simpa using h
  | cons x t ih =>
    intro acc h
    refine ih _ ?_
    unfold setAdd
    split
    · exact h
    · next hc =>
      have hx : x ∉ acc := by
        simpa [List.contains, List.elem_eq_mem] using hc
      simpa [List.nodup_append] using ⟨h, hx⟩

theorem setOfList_nodup (l : List Nat) : (setOfList l).Nodup :=
  foldl_setAdd_nodup l [] List.nodup_nil

/-- C8: season discovery uses the first of its three strategies (tab
markers, `select` option values, `?season=N` hrefs) that finds anything,
and its output is always an ascending duplicate-free list; the markers
3, 1, 2, 1 yield exactly [1, 2, 3]. -/
theorem c8_parse_season_numbers (soup : Node) :
    List.Sorted (· ≤ ·) (parse_season_numbers soup) ∧
      (parse_season_numbers soup).Nodup ∧
      (¬(setOfList (seasonTabs soup)).isEmpty →
        parse_season_numbers soup =
          List.insertionSort (· ≤ ·) (setOfList (seasonTabs soup))) ∧
      ((setOfList (seasonTabs soup)).isEmpty →
        ¬(setOfList (seasonOptions soup)).isEmpty →
        parse_season_numbers soup =
          List.insertionSort (· ≤ ·) (setOfList (seasonOptions soup))) ∧
      ((setOfList (seasonTabs soup)).isEmpty →
        (setOfList (seasonOptions soup)).isEmpty →
        parse_season_numbers soup =
          List.insertionSort (· ≤ ·) (setOfList (seasonHrefs soup))) ∧
      parse_season_numbers seasonTabDoc = [1, 2, 3] := by
  refine ⟨List.sorted_insertionSort _ _, ?_, ?_, ?_, ?_, by decide⟩
  · unfold parse_season_numbers
    refine (List.perm_insertionSort _ _).nodup_iff.mpr ?_
    split <;> try split
    all_goals exact setOfList_nodup _
  · intro h; simp [parse_season_numbers, h]
  · intro h1 h2; simp [parse_season_numbers, h1, h2]
  · intro h1 h2; simp [parse_season_numbers, h1, h2]

/-- C8 witness: on the duplicate-marker document the first strategy is
non-empty, and the result is that strategy's sorted set. -/
theorem c8_parse_season_numbers_witness :
    parse_season_numbers seasonTabDoc =
      List.insertionSort (· ≤ ·) (setOfList (seasonTabs seasonTabDoc)) :=
  (c8_parse_season_numbers seasonTabDoc).2.2.1 (by decide)

/-! ## C3 — (season, episode) uniqueness within one season's result -/

/-- The (season, episode) pair the parser derives from one card's title
text — the value `mkEpisode` stores in the identity fields. -/
def cardPair (card : Node) : Nat × Nat :=
  (parseSEcode (trimStr ((splitBullet1 (find_title_text card)).headD []))).getD (0, 0)

/-- C3 (counterexample): a season page whose two episode cards carry the
same `S1.E1` code parses to two `Episode` records with the identical
(season, episode) pair — the parser performs no deduplication, so the
pair is not a unique identity within one season's result. -/
theorem c3_counterexample :
    (parse_episodes dupPairDoc).map (fun e => (e.season, e.episode)) =
        [(1, 1), (1, 1)] ∧
      ¬ ((parse_episodes dupPairDoc).map (fun e => (e.season, e.episode))).Nodup := by
  exact ⟨by decide, by decide⟩

/-- Every parsed episode's identity pair is its card's `cardPair`. -/
theorem parse_episodes_pairs (soup : Node) :
    (parse_episodes soup).map (fun e => (e.season, e.episode)) =
      (find_episode_cards soup).map cardPair := by
  unfold parse_episodes
  rw [List.map_map]
  refine List.map_congr_left (fun card _ => ?_)
  unfold Function.comp mkEpisode cardPair
  simp

/-- C3 (amended): the episode list carries one record per discovered card
with the (season, episode) pair parsed from that card's title text; the
pairs are pairwise distinct whenever the cards' parsed codes are pairwise
distinct — the parser itself never deduplicates. -/
theorem c3_pairs_unique_iff_card_codes_distinct (soup : Node)
    (h : ((find_episode_cards soup).map cardPair).Nodup) :
    ((parse_episodes soup).map (fun e => (e.season, e.episode))).Nodup := by
  rw [parse_episodes_pairs]
  exact h

/-- C3 witness: on a page with two distinct-coded cards the parsed pairs
are distinct. -/
theorem c3_pairs_unique_witness :
    ((parse_episodes distinctPairDoc).map (fun e => (e.season, e.episode))).Nodup :=
  c3_pairs_unique_iff_card_codes_distinct distinctPairDoc (by decide)

/-! ## Stage-preservation lemmas for `parse_series_metadata` -/

theorem classifyHeroItem_title_id (m : SeriesMetadata) (item : Str) :
    (classifyHeroItem m item).title_id = m.title_id := by
  unfold classifyHeroItem
  repeat' split
  all_goals rfl

theorem classifyHeroItems_title_id (items : List Str) :
    ∀ m : SeriesMetadata, (classifyHeroItems m items).title_id = m.title_id := by
  induction items with
  | nil => intro m; rfl
  | cons x t ih =>
    intro m
    show (classifyHeroItems (classifyHeroItem m x) t).title_id = m.title_id
    rw [ih, classifyHeroItem_title_id]

theorem metaScoreUpd_title_id (agg : Node) (m : SeriesMetadata) :
    (metaScoreUpd agg m).title_id = m.title_id := by
  unfold metaScoreUpd
  repeat' split
  all_goals rfl

theorem metaAggStage_title_id (soup : Node) (m : SeriesMetadata) :
    (metaAggStage soup m).title_id = m.title_id := by
  unfold metaAggStage
  repeat' split
  all_goals simp [metaScoreUpd_title_id]

theorem metaPopStage_title_id (soup : Node) (m : SeriesMetadata) :
    (metaPopStage soup m).title_id = m.title_id := by
  unfold metaPopStage
  repeat' split
  all_goals rfl

theorem metaTagsStage_title_id (soup : Node) (m : SeriesMetadata) :
    (metaTagsStage soup m).title_id = m.title_id := by
  unfold metaTagsStage
  repeat' split
  all_goals rfl

theorem metaPopStage_rating_count (soup : Node) (m : SeriesMetadata) :
    (metaPopStage soup m).rating_count = m.rating_count := by
  unfold metaPopStage
  repeat' split
  all_goals rfl

theorem metaTagsStage_rating_count (soup : Node) (m : SeriesMetadata) :
    (metaTagsStage soup m).rating_count = m.rating_count := by
  unfold metaTagsStage
  repeat' split
  all_goals rfl

/-! ## C9 — parsers total, safe defaults, zero cards -/

/-- C9: the structural parser entry points are total functions of the
document (the embedding returns, never raises); the metadata record
always carries the requested title id, episode extraction yields exactly
one record per discovered card — so zero cards yield the empty sequence —
and on a document with no recognisable structure every metadata field
keeps its safe default. -/
theorem c9_parsers_never_fail (soup : Node) (tid : Str) :
    (parse_series_metadata soup tid).title_id = tid ∧
      (parse_episodes soup).length = (find_episode_cards soup).length ∧
      (find_episode_cards soup = [] → parse_episodes soup = []) ∧
      parse_series_metadata emptyDoc tid =
        { title_id := tid, series_name := tid, type := none, years := none,
          content_rating := none, episode_duration := none, imdb_rating := none,
          rating_count := none, popularity := none, tags := [] } := by
  refine ⟨?_, by simp [parse_episodes], ?_, ?_⟩
  · show (metaTagsStage soup (metaPopStage soup (metaAggStage soup
        (classifyHeroItems
          { title_id := tid, series_name := seriesNameOf soup tid }
          (heroListItems soup))))).title_id = tid
    rw [metaTagsStage_title_id, metaPopStage_title_id, metaAggStage_title_id,
      classifyHeroItems_title_id]
  · intro h; simp [parse_episodes, h]
  · rfl

/-- C9 witness: the empty document yields no episodes. -/
theorem c9_parsers_never_fail_witness : parse_episodes emptyDoc = [] :=
  (c9_parsers_never_fail emptyDoc []).2.2.1 rfl

/-! ## C4 — vote count from the last `/10 <count>` match -/

/-- C4: whenever the aggregate-rating block's text contains at least two
matches of the `/10 <count>` pattern, the extracted `rating_count` is the
captured group of the last match, never the first. -/
theorem c4_rating_count_last_match (soup : Node) (tid : Str) (agg : Node)
    (hagg : soup.findTestid (lit "hero-rating-bar__aggregate-rating") = some agg)
    (h2 : 2 ≤ (votesFindall agg.textSpStrip).length) :
    (parse_series_metadata soup tid).rating_count =
      (votesFindall agg.textSpStrip).getLast? := by
  have hne : votesFindall agg.textSpStrip ≠ [] := by
    intro h; rw [h] at h2; simp at h2
  obtain ⟨v, hv⟩ : ∃ v, (votesFindall agg.textSpStrip).getLast? = some v := by
    cases hl : (votesFindall agg.textSpStrip).getLast? with
    | none => exact absurd (List.getLast?_eq_none_iff.mp hl) hne
    | some v => exact ⟨v, rfl⟩
  show (metaTagsStage soup (metaPopStage soup (metaAggStage soup
      (classifyHeroItems
        { title_id := tid, series_name := seriesNameOf soup tid }
        (heroListItems soup))))).rating_count = _
  rw [metaTagsStage_rating_count, metaPopStage_rating_count]
  unfold metaAggStage
  rw [hagg]
  simp [hv]

/-- The C4 witness document: an aggregate-rating block whose text renders
the score twice (`8.2/10 8.2`) before the vote count (`/10 47K`). -/
def aggDoc : Node :=
  .elem (lit "[document]") []
    [ .elem (lit "div") [(lit "data-testid", lit "hero-rating-bar__aggregate-rating")]
        [ .text (lit "8.2 / 10 8.2"), .text (lit "8.2 / 10 47K") ] ]

/-- C4 witness: on the concrete block with two `/10` matches the vote
count is the second (last) capture, `47K`, not the first. -/
theorem c4_rating_count_last_match_witness :
    (parse_series_metadata aggDoc (lit "tt1")).rating_count = some (lit "47K") := by
  have h := c4_rating_count_last_match aggDoc (lit "tt1")
    (.elem (lit "div") [(lit "data-testid", lit "hero-rating-bar__aggregate-rating")]
      [ .text (lit "8.2 / 10 8.2"), .text (lit "8.2 / 10 47K") ])
    rfl (by decide)
  rw [h]
  decide

/-! ## C5 — best-image selection from a srcset -/

/-- One fold step of Python's `max`. -/
theorem pyMaxT_cons (c x : Nat × Str) (xs : List (Nat × Str)) :
    pyMaxT c (x :: xs) = pyMaxT (if tupGt x c then x else c) xs := rfl

theorem tupGt_false_le (x y : Nat × Str) (h : tupGt x y = false) : x.1 ≤ y.1 := by
  unfold tupGt at h
  rcases Bool.or_eq_false_iff.mp h with ⟨h1, _⟩
  exact Nat.le_of_not_lt (by simpa using h1)

theorem stepGeAcc (c x : Nat × Str) : c.1 ≤ (if tupGt x c then x else c).1 := by
  split
  · next h =>
    unfold tupGt at h
    rcases Bool.or_eq_true_iff.mp h with h1 | h1
    · exact Nat.le_of_lt (by simpa using h1)
    · have h2 := (Bool.and_eq_true_iff.mp h1).1
      simp only [beq_iff_eq] at h2
      omega
  · exact le_refl _

theorem stepGeNew (c x : Nat × Str) : x.1 ≤ (if tupGt x c then x else c).1 := by
  split
  · exact le_refl _
  · next h => exact tupGt_false_le x c (by simpa using h)

/-- Python's `max` result is a member of the candidate list. -/
theorem pyMaxT_mem (cs : List (Nat × Str)) :
    ∀ c : Nat × Str, pyMaxT c cs ∈ c :: cs := by
  induction cs with
  | nil => intro c; simp [pyMaxT]
  | cons x xs ih =>
    intro c
    rw [pyMaxT_cons]
    split
    · rcases List.mem_cons.mp (ih x) with h | h
      · simp [h]
      · exact List.mem_cons_of_mem _ (List.mem_cons_of_mem _ h)
    · rcases List.mem_cons.mp (ih c) with h | h
      · simp [h]
      · exact List.mem_cons_of_mem _ (List.mem_cons_of_mem _ h)

/-- The accumulator's width never decreases along the fold. -/
theorem pyMaxT_acc_le (cs : List (Nat × Str)) :
    ∀ c : Nat × Str, c.1 ≤ (pyMaxT c cs).1 := by
  induction cs with
  | nil => intro c; simp [pyMaxT]
  | cons x xs ih =>
    intro c
    rw [pyMaxT_cons]
    exact le_trans (stepGeAcc c x) (ih _)

/-- Python's `max` dominates every candidate's width. -/
theorem pyMaxT_width_max (cs : List (Nat × Str)) :
    ∀ c : Nat × Str, ∀ y ∈ c :: cs, y.1 ≤ (pyMaxT c cs).1 := by
  induction cs with
  | nil => intro c y hy; rcases List.mem_singleton.mp hy with rfl; simp [pyMaxT]
  | cons x xs ih =>
    intro c y hy
    rw [pyMaxT_cons]
    rcases List.mem_cons.mp hy with rfl | hy
    · exact le_trans (stepGeAcc y x) (pyMaxT_acc_le xs _)
    · rcases List.mem_cons.mp hy with rfl | hy
      · exact le_trans (stepGeNew c y) (pyMaxT_acc_le xs _)
      · exact ih _ y (List.mem_cons_of_mem _ hy)

/-- A responsive-image element carrying the given srcset. -/
def imgWithSrcset (ss : Str) : Node :=
  .elem (lit "img") [(lit "srcset", ss)] []

/-- The three C5 entries; each URL carries embedded commas. -/
def e320 : Str :=
  lit "https://m.media-amazon.com/images/M/ep1._V1_CR43,0,1364,767_QL75_UX320_CR0,0,320,180_.jpg 320w"

def e640 : Str :=
  lit "https://m.media-amazon.com/images/M/ep1._V1_CR43,0,1364,767_QL75_UX640_CR0,0,640,360_.jpg 640w"

def e1000 : Str :=
  lit "https://m.media-amazon.com/images/M/ep1._V1_CR43,0,1364,767_QL75_UX1000_CR0,0,1000,563_.jpg 1000w"

def url1000 : Str :=
  lit "https://m.media-amazon.com/images/M/ep1._V1_CR43,0,1364,767_QL75_UX1000_CR0,0,1000,563_.jpg"

/-- All six orders of three entries. -/
def perms3 (a b c : Str) : List (List Str) :=
  [[a, b, c], [a, c, b], [b, a, c], [b, c, a], [c, a, b], [c, b, a]]

/-- C5: best-image selection splits the srcset only at a comma-whitespace
boundary followed by an http(s) scheme and picks the candidate of maximal
declared width (Python tuple-`max`, a member of the candidates dominating
all declared widths); in particular every permutation of the widths
{320, 640, 1000} — each URL containing embedded commas — selects the
1000-width URL. -/
theorem c5_best_image_largest_width :
    (∀ l ∈ perms3 e320 e640 e1000,
      best_image (imgWithSrcset (joinSep (lit ", ") l)) = some url1000) ∧
      (∀ (srcset : Str) (c : Nat × Str) (cs : List (Nat × Str)),
        srcset ≠ [] →
        srcsetCandidates srcset = c :: cs →
        best_image (imgWithSrcset srcset) = some (pyMaxT c cs).2 ∧
          pyMaxT c cs ∈ c :: cs ∧
          ∀ y ∈ c :: cs, y.1 ≤ (pyMaxT c cs).1) := by
  refine ⟨by decide, ?_⟩
  intro srcset c cs hne hcand
  refine ⟨?_, pyMaxT_mem cs c, pyMaxT_width_max cs c⟩
  unfold best_image imgWithSrcset
  simp only [Node.attrD, Node.attr]
  simp [hne, hcand]

/-- C5 witness: one concrete permutation, with the 1000-width entry first,
still selects the 1000-width URL. -/
theorem c5_best_image_largest_width_witness :
    best_image (imgWithSrcset (joinSep (lit ", ") [e1000, e320, e640])) = some url1000 :=
  c5_best_image_largest_width.1 [e1000, e320, e640] (by decide)

/-! ## C1 — no navigating link is ever selected by the load-more finder -/

/-- `href or ""` does not change the navigation guard's verdict. -/
theorem is_navigating_href_getD (o : Option Str) :
    is_navigating_href (some (o.getD [])) = is_navigating_href o := by
  cases o <;> rfl

theorem strategy1_tag (page : PageElems) (e : Elem)
    (h : strategy1 page = some e) : e.tag = ETag.button := by
  unfold strategy1 at h
  have hm := List.mem_of_find?_eq_some h
  have := (List.mem_filter.mp hm).2
  have := (Bool.and_eq_true_iff.mp this).1
  simpa using this

theorem strategy2_not_nav (page : PageElems) (e : Elem)
    (h : strategy2 page = some e) :
    is_navigating_href (some e.hrefOrEmpty) = false := by
  unfold strategy2 at h
  have hp := List.find?_some h
  have h1 := (Bool.and_eq_true_iff.mp hp).1
  have h2 := (Bool.and_eq_true_iff.mp h1).1
  simpa using h2

theorem strategy3_link_not_nav :
    ∀ (combos : List (Str × ETag)) (page : PageElems) (e : Elem),
      strategy3 combos page = some e → e.tag = ETag.a →
      is_navigating_href (some e.hrefOrEmpty) = false := by
  intro combos
  induction combos with
  | nil => intro page e h; simp [strategy3] at h
  | cons ft rest ih =>
    intro page e h hl
    obtain ⟨frag, t⟩ := ft
    unfold strategy3 at h
    cases hfl : (page.filter (s3Sel frag t)) with
    | nil => rw [hfl] at h; exact ih page e h hl
    | cons y ys =>
      rw [hfl] at h
      simp only [List.head?] at h
      by_cases hnav : (t == ETag.a && is_navigating_href (some y.hrefOrEmpty)) = true
      · rw [if_pos hnav] at h
        exact ih page e h hl
      · rw [if_neg hnav] at h
        by_cases had : y.adNotTrue = true
        · rw [if_pos had] at h
          cases h
          have hy : e ∈ page.filter (s3Sel frag t) := by
            rw [hfl]; exact List.mem_cons_self _ _
          have hs := (List.mem_filter.mp hy).2
          have ht : e.tag = t := by
            have := (Bool.and_eq_true_iff.mp ((Bool.and_eq_true_iff.mp hs).1)).1
            simpa using this
          have hta : t = ETag.a := by rw [← ht]; exact hl
          subst hta
          simpa using hnav
        · rw [if_neg had] at h
          exact ih page e h hl

theorem strategy4_link_not_nav :
    ∀ (tags : List ETag) (page : PageElems) (e : Elem),
      strategy4 tags page = some e → e.tag = ETag.a →
      is_navigating_href (some e.hrefOrEmpty) = false := by
  intro tags
  induction tags with
  | nil => intro page e h; simp [strategy4] at h
  | cons t rest ih =>
    intro page e h hl
    unfold strategy4 at h
    cases hf : (page.filter (s4Sel t)).find?
        (fun x =>
          !(t == ETag.a && is_navigating_href (some x.hrefOrEmpty)) && x.adNotTrue) with
    | none => rw [hf] at h; exact ih page e h hl
    | some x =>
      rw [hf] at h
      cases h
      have hp := List.find?_some hf
      have hmem := List.mem_of_find?_eq_some hf
      have ht : e.tag = t := by
        have := (Bool.and_eq_true_iff.mp
          ((Bool.and_eq_true_iff.mp ((List.mem_filter.mp hmem).2)).1)).1
        simpa using this
      have hta : t = ETag.a := by rw [← ht, hl]
      subst hta
      have h1 := (Bool.and_eq_true_iff.mp hp).1
      simpa using h1

/-- C1: whatever page the four ordered strategies of the load-more finder
scan, a returned element that is a link never carries a navigating href —
its href is absent, empty, `#`-prefixed, or a `javascript:` pseudo-URL. -/
theorem c1_finder_never_returns_navigating_link (page : PageElems) (e : Elem)
    (hfind : find_loadmore page = some e) (hlink : e.tag = ETag.a) :
    is_navigating_href e.href = false := by
  rw [← is_navigating_href_getD e.href]
  unfold find_loadmore at hfind
  cases h1 : strategy1 page with
  | some b =>
    rw [h1] at hfind; cases hfind
    have := strategy1_tag page e h1
    rw [hlink] at this; cases this
  | none =>
    rw [h1] at hfind
    cases h2 : strategy2 page with
    | some b =>
      rw [h2] at hfind; cases hfind
      exact strategy2_not_nav page e h2
    | none =>
      rw [h2] at hfind
      cases h3 : strategy3 s3Combos page with
      | some b =>
        rw [h3] at hfind; cases hfind
        exact strategy3_link_not_nav s3Combos page e h3 hlink
      | none =>
        rw [h3] at hfind
        exact strategy4_link_not_nav [ETag.button, ETag.a] page e hfind hlink

/-- The C1 witness page: one visible `12 more` link whose href is the
non-navigating `#`. -/
def c1Page : PageElems :=
  [{ tag := ETag.a, href := some (lit "#"), innerText := lit "12 more" }]

def c1El : Elem :=
  { tag := ETag.a, href := some (lit "#"), innerText := lit "12 more" }

/-- C1 witness: on the concrete page the finder selects the `#`-href link
(via strategy 2), and that href is indeed non-navigating. -/
theorem c1_finder_never_returns_navigating_link_witness :
    is_navigating_href c1El.href = false :=
  c1_finder_never_returns_navigating_link c1Page c1El (by decide) rfl

/-! ## C7 — save followed by load round-trips every field -/

/-- Digits appended on the right shift the accumulated value. -/
theorem strToNat_append_digit (a : Str) (c : Char) :
    strToNat (a ++ [c]) = 10 * strToNat a + (c.toNat - 48) := by
  unfold strToNat
  rw [List.foldl_append]
  rfl

theorem charVal_digitChar (d : Nat) (h : d < 10) :
    (digitChar d).toNat - 48 = d := by
  interval_cases d <;> rfl

/-- `int(str(n)) = n`: printing a natural and re-parsing it is the
identity (the season-key conversion of `load`). -/
theorem strToNat_natToStr (n : Nat) : strToNat (natToStr n) = n := by
  suffices h : ∀ fuel n : Nat, n < fuel → strToNat (natToStrAux fuel n) = n by
    exact h (n + 1) n (Nat.lt_succ_self n)
  intro fuel
  induction fuel with
  | zero => intro n h; omega
  | succ f ih =>
    intro n h
    unfold natToStrAux
    by_cases h10 : n < 10
    · rw [if_pos h10]
      show strToNat [digitChar n] = n
      unfold strToNat
      simpa using charVal_digitChar n h10
    · rw [if_neg h10]
      rw [strToNat_append_digit, ih (n / 10) (by omega),
        charVal_digitChar (n % 10) (Nat.mod_lt _ (by omega))]
      omega

/-- One episode round-trips through its JSON object. -/
theorem episodeFromJson_to_dict (e : Episode) :
    episodeFromJson (Episode.to_dict e) = e := by
  obtain ⟨ec, ti, s, ep, ad, de, ra, ci, cil, iu⟩ := e
  cases ci <;> cases cil <;> rfl

/-- A list of episodes round-trips. -/
theorem episodes_roundtrip (l : List Episode) :
    (l.map Episode.to_dict).map episodeFromJson = l := by
  induction l with
  | nil => rfl
  | cons e t ih => simp [episodeFromJson_to_dict, ih]

/-- A JSON string array decodes back to its strings. -/
theorem tags_roundtrip (ts : List Str) :
    (ts.map Json.str).filterMap
      (fun x => match x with | Json.str s => some s | _ => none) = ts := by
  induction ts with
  | nil => rfl
  | cons s t ih => simp [List.filterMap_cons, ih]

/-- The seasons object round-trips, keys converting back to integers. -/
theorem seasons_roundtrip (l : List (Nat × List Episode)) :
    (l.map (fun p => (natToStr p.1, Json.arr (p.2.map Episode.to_dict)))).map
        (fun kv =>
          (strToNat kv.1,
           match kv.2 with
           | Json.arr eps => eps.map episodeFromJson
           | _ => [])) = l := by
  induction l with
  | nil => rfl
  | cons p t ih =>
    simp only [List.map_cons, ih]
    show (strToNat (natToStr p.1),
        (p.2.map Episode.to_dict).map episodeFromJson) :: t = p :: t
    rw [strToNat_natToStr, episodes_roundtrip]

/-- C7: serialising a title aggregate with `save`'s JSON shape and reading
it back with `load` reproduces every metadata field, every season key and
every episode field exactly. -/
theorem c7_save_load_roundtrip (t : TitleInfo) :
    load (TitleInfo.to_dict t) = t := by
  obtain ⟨⟨tid, name, ty, yr, cr, ed, ir, rc, pop, tags⟩, seasons⟩ := t
  have h1 :
      (load (TitleInfo.to_dict
        ⟨⟨tid, name, ty, yr, cr, ed, ir, rc, pop, tags⟩, seasons⟩)).seasons = seasons := by
    show (seasons.map (fun p => (natToStr p.1, Json.arr (p.2.map Episode.to_dict)))).map
        (fun kv =>
          (strToNat kv.1,
           match kv.2 with
           | Json.arr eps => eps.map episodeFromJson
           | _ => [])) = seasons
    exact seasons_roundtrip seasons
  have h2 :
      (load (TitleInfo.to_dict
        ⟨⟨tid, name, ty, yr, cr, ed, ir, rc, pop, tags⟩, seasons⟩)).meta =
        ⟨tid, name, ty, yr, cr, ed, ir, rc, pop, tags⟩ := by
    have e10 : (load (TitleInfo.to_dict
        ⟨⟨tid, name, ty, yr, cr, ed, ir, rc, pop, tags⟩, seasons⟩)).meta.tags = tags := by
      show (tags.map Json.str).filterMap
          (fun x => match x with | Json.str s => some s | _ => none) = tags
      exact tags_roundtrip tags
    have heta : (load (TitleInfo.to_dict
        ⟨⟨tid, name, ty, yr, cr, ed, ir, rc, pop, tags⟩, seasons⟩)).meta =
        SeriesMetadata.mk (load (TitleInfo.to_dict
        ⟨⟨tid, name, ty, yr, cr, ed, ir, rc, pop, tags⟩, seasons⟩)).meta.title_id (load (TitleInfo.to_dict
        ⟨⟨tid, name, ty, yr, cr, ed, ir, rc, pop, tags⟩, seasons⟩)).meta.series_name (load (TitleInfo.to_dict
        ⟨⟨tid, name, ty, yr, cr, ed, ir, rc, pop, tags⟩, seasons⟩)).meta.type (load (TitleInfo.to_dict
        ⟨⟨tid, name, ty, yr, cr, ed, ir, rc, pop, tags⟩, seasons⟩)).meta.years
          (load (TitleInfo.to_dict
        ⟨⟨tid, name, ty, yr, cr, ed, ir, rc, pop, tags⟩, seasons⟩)).meta.content_rating (load (TitleInfo.to_dict
        ⟨⟨tid, name, ty, yr, cr, ed, ir, rc, pop, tags⟩, seasons⟩)).meta.episode_duration (load (TitleInfo.to_dict
        ⟨⟨tid, name, ty, yr, cr, ed, ir, rc, pop, tags⟩, seasons⟩)).meta.imdb_rating
          (load (TitleInfo.to_dict
        ⟨⟨tid, name, ty, yr, cr, ed, ir, rc, pop, tags⟩, seasons⟩)).meta.rating_count (load (TitleInfo.to_dict
        ⟨⟨tid, name, ty, yr, cr, ed, ir, rc, pop, tags⟩, seasons⟩)).meta.popularity (load (TitleInfo.to_dict
        ⟨⟨tid, name, ty, yr, cr, ed, ir, rc, pop, tags⟩, seasons⟩)).meta.tags := rfl
    rw [heta, e10,
      (by cases ty <;> rfl : (load (TitleInfo.to_dict
        ⟨⟨tid, name, ty, yr, cr, ed, ir, rc, pop, tags⟩, seasons⟩)).meta.type = ty),
      (by cases yr <;> rfl : (load (TitleInfo.to_dict
        ⟨⟨tid, name, ty, yr, cr, ed, ir, rc, pop, tags⟩, seasons⟩)).meta.years = yr),
      (by cases cr <;> rfl : (load (TitleInfo.to_dict
        ⟨⟨tid, name, ty, yr, cr, ed, ir, rc, pop, tags⟩, seasons⟩)).meta.content_rating = cr),
      (by cases ed <;> rfl : (load (TitleInfo.to_dict
        ⟨⟨tid, name, ty, yr, cr, ed, ir, rc, pop, tags⟩, seasons⟩)).meta.episode_duration = ed),
      (by cases ir <;> rfl : (load (TitleInfo.to_dict
        ⟨⟨tid, name, ty, yr, cr, ed, ir, rc, pop, tags⟩, seasons⟩)).meta.imdb_rating = ir),
      (by cases rc <;> rfl : (load (TitleInfo.to_dict
        ⟨⟨tid, name, ty, yr, cr, ed, ir, rc, pop, tags⟩, seasons⟩)).meta.rating_count = rc),
      (by cases pop <;> rfl : (load (TitleInfo.to_dict
        ⟨⟨tid, name, ty, yr, cr, ed, ir, rc, pop, tags⟩, seasons⟩)).meta.popularity = pop)]
    rfl
  calc load (TitleInfo.to_dict ⟨⟨tid, name, ty, yr, cr, ed, ir, rc, pop, tags⟩, seasons⟩)
      = ⟨(load (TitleInfo.to_dict
          ⟨⟨tid, name, ty, yr, cr, ed, ir, rc, pop, tags⟩, seasons⟩)).meta,
         (load (TitleInfo.to_dict
          ⟨⟨tid, name, ty, yr, cr, ed, ir, rc, pop, tags⟩, seasons⟩)).seasons⟩ := rfl
    _ = ⟨⟨tid, name, ty, yr, cr, ed, ir, rc, pop, tags⟩, seasons⟩ := by rw [h1, h2]

/-! ## C10 — image download: local paths and skip-existing -/

/-- The pure per-episode description of what the job-collection loop
assigns: `None` for an absent or empty URL, otherwise the destination
path string. -/
def assignedLocal (images_dir title_id : Str) (ep : Episode) : Option Str :=
  match ep.cover_image with
  | none => none
  | some url =>
    if url == [] then none else some (destPathOf images_dir title_id ep url)

theorem assignEp_fst (images_dir title_id : Str) (ep : Episode) :
    (assignEp images_dir title_id ep).1 =
      { ep with cover_image_local := assignedLocal images_dir title_id ep } := by
  unfold assignEp assignedLocal
  cases ep.cover_image with
  | none => rfl
  | some url =>
    by_cases h : url == []
    · simp [h]
    · simp [h]

/-- The inner episode fold in accumulator form. -/
theorem inner_fold_assign (images_dir title_id : Str) (eps : List Episode) :
    ∀ (a : List Episode) (js : List (Str × Str)),
      eps.foldl
        (fun (acc : List Episode × List (Str × Str)) ep =>
          let r3 := assignEp images_dir title_id ep
          (r3.1 :: acc.1, match r3.2 with | some j => j :: acc.2 | none => acc.2))
        (a, js) =
      ((eps.map (fun ep => (assignEp images_dir title_id ep).1)).reverse ++ a,
       (eps.filterMap (fun ep => (assignEp images_dir title_id ep).2)).reverse ++ js) := by
  induction eps with
  | nil => intro a js; simp
  | cons e t ih =>
    intro a js
    rw [List.foldl_cons, ih]
    cases hj : (assignEp images_dir title_id e).2 <;>
      simp [hj, List.filterMap_cons]

/-- The assignment pass rewrites exactly the `cover_image_local` field of
every episode, leaving the season structure intact. -/
theorem download_images_assign_seasons (info : TitleInfo) (images_dir : Str) :
    (download_images_assign info images_dir).1 =
      { info with
        seasons := info.seasons.map (fun p => (p.1, p.2.map
          (fun ep =>
            { ep with
              cover_image_local := assignedLocal images_dir info.meta.title_id ep }))) } := by
  obtain ⟨meta, seasons⟩ := info
  suffices h : ∀ (accS : List (Nat × List Episode)) (accJ : List (Str × Str)),
      (seasons.foldl
        (fun (acc : List (Nat × List Episode) × List (Str × Str)) p =>
          let r2 := p.2.foldl
            (fun (a : List Episode × List (Str × Str)) ep =>
              let r3 := assignEp images_dir meta.title_id ep
              (r3.1 :: a.1, match r3.2 with | some j => j :: a.2 | none => a.2))
            ([], acc.2)
          ((p.1, r2.1.reverse) :: acc.1, r2.2))
        (accS, accJ)).1.reverse =
      accS.reverse ++ seasons.map (fun p => (p.1, p.2.map
        (fun ep =>
          { ep with
            cover_image_local := assignedLocal images_dir meta.title_id ep }))) by
    have h0 := h [] []
    simp only [List.reverse_nil, List.nil_append] at h0
    show TitleInfo.mk meta _ = TitleInfo.mk meta _
    rw [TitleInfo.mk.injEq]
    exact ⟨rfl, h0⟩
  induction seasons with
  | nil => intro accS accJ; simp
  | cons p t ih =>
    intro accS accJ
    rw [List.foldl_cons]
    rw [show (p.2.foldl
        (fun (a : List Episode × List (Str × Str)) ep =>
          let r3 := assignEp images_dir meta.title_id ep
          (r3.1 :: a.1, match r3.2 with | some j => j :: a.2 | none => a.2))
        ([], accJ)) =
      ((p.2.map (fun ep => (assignEp images_dir meta.title_id ep).1)).reverse ++ [],
       (p.2.filterMap (fun ep => (assignEp images_dir meta.title_id ep).2)).reverse ++ accJ)
      from inner_fold_assign images_dir meta.title_id p.2 [] accJ]
    rw [ih]
    simp [assignEp_fst]

theorem contains_iff_mem (l : List Str) (x : Str) : l.contains x = true ↔ x ∈ l := by
  simp [List.contains, List.elem_eq_mem]

/-- The modelled file system only grows along the download phase. -/
theorem downloadPhase_fs_mono (net : Str → Nat → Bool) :
    ∀ (jobs : List (Str × Str)) (fs : List Str) (x : Str),
      x ∈ fs → x ∈ (downloadPhase net jobs fs).1 := by
  intro jobs
  induction jobs with
  | nil => intro fs x h; simpa [downloadPhase] using h
  | cons j t ih =>
    intro fs x h
    obtain ⟨url, dest⟩ := j
    show x ∈ (downloadPhase net t
      (if (download_one dest fs (net dest)).2 then dest :: fs else fs)).1
    refine ih _ x ?_
    split
    · exact List.mem_cons_of_mem _ h
    · exact h

/-- Nothing already on disk is ever written by the download phase. -/
theorem downloadPhase_writes_fresh (net : Str → Nat → Bool) :
    ∀ (jobs : List (Str × Str)) (fs fs0 : List Str),
      (∀ x, x ∈ fs0 → x ∈ fs) →
      ∀ d ∈ (downloadPhase net jobs fs).2, d ∉ fs0 := by
  intro jobs
  induction jobs with
  | nil => intro fs fs0 _ d hd; simp [downloadPhase] at hd
  | cons j t ih =>
    intro fs fs0 hsub d hd
    obtain ⟨url, dest⟩ := j
    have hd2 : d ∈ (if (download_one dest fs (net dest)).2 then [dest] else []) ++
        (downloadPhase net t
          (if (download_one dest fs (net dest)).2 then dest :: fs else fs)).2 := hd
    rcases List.mem_append.mp hd2 with h1 | h1
    · by_cases hw : (download_one dest fs (net dest)).2 = true
      · rw [if_pos hw] at h1
        rcases List.mem_singleton.mp h1 with rfl
        intro hd0
        have hdfs : d ∈ fs := hsub d hd0
        unfold download_one at hw
        rw [if_pos ((contains_iff_mem fs d).mpr hdfs)] at hw
        simp at hw
      · rw [if_neg hw] at h1
        cases h1
    · refine ih _ fs0 ?_ d h1
      intro x hx
      have hxf := hsub x hx
      split
      · exact List.mem_cons_of_mem _ hxf
      · exact hxf

/-- C10: after the download step, an episode with an absent or empty
cover URL has no local path, every other episode's local path is
`<images_dir>/<title_id>/S<season>E<episode>.<ext>` — assigned in the
job-collection pass and therefore identical under any network behaviour,
downloads failing or not — and a destination that already exists is never
written. -/
theorem c10_download_images_paths (info : TitleInfo) (images_dir : Str)
    (fs : List Str) (net net2 : Str → Nat → Bool) :
    ((download_images info images_dir fs net).1 =
      { info with
        seasons := info.seasons.map (fun p => (p.1, p.2.map
          (fun ep =>
            { ep with
              cover_image_local := assignedLocal images_dir info.meta.title_id ep }))) }) ∧
      (download_images info images_dir fs net).1 =
        (download_images info images_dir fs net2).1 ∧
      ∀ d ∈ (download_images info images_dir fs net).2.2, d ∉ fs := by
  refine ⟨download_images_assign_seasons info images_dir, rfl, ?_⟩
  intro d hd
  exact downloadPhase_writes_fresh net _ fs fs (fun x h => h) d hd

/-- The C10 witness aggregate: one episode with a cover URL whose
destination does not yet exist, one without any URL. -/
def c10Ep1 : Episode :=
  { episode_code := lit "S1.E1", title := lit "Pilot", season := 1, episode := 1,
    air_date := [], description := [], rating := lit "N/A",
    cover_image := some (lit "https://cdn.example/a/b.png"),
    cover_image_local := some (lit "stale"), imdb_url := [] }

def c10Ep2 : Episode :=
  { episode_code := lit "S1.E2", title := lit "Second", season := 1, episode := 2,
    air_date := [], description := [], rating := lit "N/A",
    cover_image := none, cover_image_local := some (lit "stale"), imdb_url := [] }

def c10Info : TitleInfo :=
  { meta := { title_id := lit "tt1", series_name := lit "T" },
    seasons := [(1, [c10Ep1, c10Ep2])] }

/-- C10 witness: with an always-failing network the paths are still
assigned — `images/tt1/S1E1.png` for the URL-bearing episode, `None` for
the other — and the write set stays clear of pre-existing files. -/
theorem c10_download_images_paths_witness :
    (download_images c10Info (lit "images") [] (fun _ _ => false)).1 =
      { c10Info with
        seasons := [(1,
          [{ c10Ep1 with cover_image_local := some (lit "images/tt1/S1E1.png") },
           { c10Ep2 with cover_image_local := none }])] } ∧
      ∀ d ∈ (download_images c10Info (lit "images") []
          (fun _ _ => false)).2.2, d ∉ ([] : List Str) := by
  have h := c10_download_images_paths c10Info (lit "images") []
    (fun _ _ => false) (fun _ _ => true)
  refine ⟨?_, h.2.2⟩
  rw [h.1]
  decide

/-- The network behaviour of the C6 witness: two failures then a success. -/
def c6oracle : Nat → FetchOutcome :=
  fun k => if k = 3 then FetchOutcome.success emptyDoc else FetchOutcome.failure

/-- C6 witness: under two concrete transport failures followed by a
success, the fetch returns the third attempt's document after sleeping
1.5 s and 3 s. -/
theorem c6_http_fetch_retries_witness :
    http_fetch c6oracle = ⟨some emptyDoc, 3, [3 / 2, 3]⟩ :=
  (c6_http_fetch_retries c6oracle emptyDoc).2.2.1 rfl rfl rfl
